import Mathlib

/-!
Shallow embedding of the `dyn_serde` crate (src/de.rs, src/ser.rs,
src/error.rs): the state-holder adapters (`InplaceSerializer`,
`InplaceDeserializer`, `InplaceVisitor`, `InplaceDeserializeSeed`,
`InplaceSeqAccess`, `InplaceMapAccess`, `InplaceEnumAccess`), the
protocol-violation error enumerations, the unified error carriers, and the
generic bridge impls that make the erased trait objects satisfy the serde
traits again.

Rust's `&mut`-reference mutation is embedded as explicit state passing: a
closure `FnOnce(D) -> Result<(), D::Error>` that captures a `&mut dyn
Visitor` is embedded as `D → σ → σ × Except E Unit`, threading the captured
state `σ` explicitly.  Generic Rust functions become polymorphic Lean
functions; serde associated types become type parameters.
-/

set_option linter.unusedVariables false

deriving instance DecidableEq for Except

namespace DynSerde

/-- Mirrors `InplaceDeserializeError` (src/de.rs:1226-1247): the
protocol-level error enumeration returned by the mirror methods.  Every
constructor is nullary — the signal carries no payload. -/
inductive InplaceDeserializeError where
  | ok
  | error
  | notDeserializer
  | notDeserializeSeed
  | notVisitor
  | notSeqAccess
  | notMapAccess
  | notEnumAccess
  | notVariantAccess
deriving DecidableEq

/-- Mirrors the `Display` impl for `InplaceDeserializeError`
(src/de.rs:1249-1271). -/
def InplaceDeserializeError.display : InplaceDeserializeError → String
  | .ok => "the deserialization has done successfully"
  | .error => "the deserialization has done unsuccessfully"
  | .notDeserializer => "the deserializer is not ready"
  | .notDeserializeSeed => "the deserialize seed is not ready"
  | .notVisitor => "the visitor is not ready"
  | .notSeqAccess => "the visitor is not ready to deserialize the contents of the sequence"
  | .notMapAccess => "the visitor is not ready to deserialize the contents of the map"
  | .notEnumAccess => "the visitor is not ready to deserialize the contents of the enum"
  | .notVariantAccess => "the visitor is not ready to deserialize the contents of the enum variant"

/-- Mirrors `InplaceDeserializeResult<T>` (src/de.rs:22). -/
abbrev InplaceDeserializeResult (T : Type) : Type := Except InplaceDeserializeError T

/-- Mirrors `DeserializeError` (src/de.rs:1281): a wrapper around
`InplaceDeserializeResult<Box<str>>`; the `Ok` branch holds a custom
message, the `Err` branch a protocol error. -/
structure DeserializeError where
  repr : Except InplaceDeserializeError String
deriving DecidableEq

/-- Mirrors `serde::de::Error::custom` for `DeserializeError`
(src/de.rs:1320-1326); the displayed message is taken as a `String`. -/
def DeserializeError.custom (msg : String) : DeserializeError :=
  ⟨.ok msg⟩

/-- Mirrors `From<InplaceDeserializeError> for DeserializeError`
(src/de.rs:1312-1318). -/
def DeserializeError.fromInplace (e : InplaceDeserializeError) : DeserializeError :=
  ⟨.error e⟩

/-- Mirrors the `Display` impl for `DeserializeError` (src/de.rs:1301-1308). -/
def DeserializeError.display (e : DeserializeError) : String :=
  match e.repr with
  | .ok msg => msg
  | .error err => err.display

/-- Mirrors `DeserializeError::into_error` (src/de.rs:1284-1293): both
branches rebuild the target error through its `custom` constructor, applied
to the displayed text; `custom` embeds the target type's
`serde::de::Error::custom`. -/
def DeserializeError.into_error (custom : String → E) (e : DeserializeError) : E :=
  match e.repr with
  | .ok msg => custom msg
  | .error err => custom err.display

-- InplaceDeserializer
-- ---------------------------------------------------------------------------

/-- Mirrors `enum InplaceDeserializer` (src/de.rs:513-522), the Slot of the
Deserializer Adapter: `None` (empty), `Error` (failed, holding the backend
error) and `Deserializer` (holding the ready backend). -/
inductive InplaceDeserializer (D E : Type) where
  | none
  | error (e : E)
  | deserializer (d : D)
deriving DecidableEq

/-- Mirrors `InplaceDeserializer::deserialize_with` (src/de.rs:532-546).
The Rust closure `f : FnOnce(D) -> Result<(), D::Error>` captures the
visitor by mutable reference, so the embedding threads that captured state
`σ` explicitly.  If the slot holds a deserializer it is taken
(`mem::take` leaves `None`), `f` runs; on success the slot stays `None`
and `Ok(())` is returned; on failure the backend error is stored as
`Error` and the content-free `InplaceDeserializeError::Error` signal is
returned.  In any other state the slot is untouched and `NotDeserializer`
is returned. -/
def InplaceDeserializer.deserialize_with :
    InplaceDeserializer D E → σ → (D → σ → σ × Except E Unit) →
    InplaceDeserializer D E × σ × InplaceDeserializeResult Unit
  | .deserializer d, vis, f =>
    match f d vis with
    | (vis', .ok _) => (.none, vis', .ok ())
    | (vis', .error e) => (.error e, vis', .error .error)
  | .none, vis, _ => (.none, vis, .error .notDeserializer)
  | .error e, vis, _ => (.error e, vis, .error .notDeserializer)

/-- Mirrors `InplaceDeserializer::into_result` (src/de.rs:525-530): an `Ok`
result passes through; an error is replaced by the captured backend error
when the slot is `Error`, otherwise resynthesized via
`DeserializeError::into_error`. -/
def InplaceDeserializer.into_result (custom : String → E)
    (s : InplaceDeserializer D E) (result : Except DeserializeError Unit) :
    Except E Unit :=
  match result with
  | .ok _ => .ok ()
  | .error err =>
    .error (match s with
      | .error e => e
      | _ => err.into_error custom)

/-- Mirrors `InplaceDeserializer::dyn_is_human_readable` (src/de.rs:775-781):
the backend is queried only in the `Deserializer` state; every other state
answers `true`.  The backend method `is_human_readable` is passed as `hr`. -/
def InplaceDeserializer.dyn_is_human_readable (hr : D → Bool) :
    InplaceDeserializer D E → Bool
  | .deserializer d => hr d
  | _ => true

-- InplaceVisitor
-- ---------------------------------------------------------------------------

/-- Mirrors `enum InplaceVisitor` (src/de.rs:850-859), the Slot of the
Visitor Adapter: `None`, `Value` (produced) and `Visitor` (ready). -/
inductive InplaceVisitor (V Val : Type) where
  | none
  | value (v : Val)
  | visitor (v : V)
deriving DecidableEq

/-- Mirrors `InplaceVisitor::visit_with` (src/de.rs:872-884).  The closure
`f : FnOnce(V) -> DeserializeResult<V::Value>` may capture a nested
deserializer or access object by mutable reference; that captured state `σ`
is threaded explicitly.  On success the value is stored as `Value`; on
failure the error propagates through `?` and the slot — already emptied by
`mem::take` — stays `None`. -/
def InplaceVisitor.visit_with :
    InplaceVisitor V Val → σ → (V → σ → σ × Except DeserializeError Val) →
    InplaceVisitor V Val × σ × Except DeserializeError Unit
  | .visitor v, st, f =>
    match f v st with
    | (st', .ok x) => (.value x, st', .ok ())
    | (st', .error e) => (.none, st', .error e)
  | .none, st, _ => (.none, st, .error (DeserializeError.fromInplace .notVisitor))
  | .value x, st, _ => (.value x, st, .error (DeserializeError.fromInplace .notVisitor))

/-- Mirrors `InplaceVisitor::into_result` (src/de.rs:862-870).  The
`result.unwrap_err()` call panics when `result` is `Ok`; the panic is
embedded as `Option.none`. -/
def InplaceVisitor.into_result :
    InplaceVisitor V Val → InplaceDeserializeResult Unit →
    Option (Except DeserializeError Val)
  | .value v, _ => some (.ok v)
  | _, .error e => some (.error (DeserializeError.fromInplace e))
  | _, .ok _ => Option.none

-- InplaceDeserializeSeed
-- ---------------------------------------------------------------------------

/-- Mirrors `enum InplaceDeserializeSeed` (src/de.rs:788-797). -/
inductive InplaceDeserializeSeed (T Val : Type) where
  | none
  | value (v : Val)
  | deserializeSeed (t : T)
deriving DecidableEq

/-- Mirrors `DeserializeSeed::dyn_deserialize` for `InplaceDeserializeSeed`
(src/de.rs:830-843).  `deser` embeds `seed.deserialize`, generic over the
`&mut dyn Deserializer` it receives, whose state `σ` is threaded.  On
success the value is stored as `Value`; on failure the slot — emptied by
`mem::take` — stays `None` and the error propagates. -/
def InplaceDeserializeSeed.dyn_deserialize :
    InplaceDeserializeSeed T Val → σ → (T → σ → σ × Except DeserializeError Val) →
    InplaceDeserializeSeed T Val × σ × Except DeserializeError Unit
  | .deserializeSeed t, de, deser =>
    match deser t de with
    | (de', .ok v) => (.value v, de', .ok ())
    | (de', .error e) => (.none, de', .error e)
  | .none, de, _ => (.none, de, .error (DeserializeError.fromInplace .notDeserializeSeed))
  | .value v, de, _ => (.value v, de, .error (DeserializeError.fromInplace .notDeserializeSeed))

/-- Mirrors `InplaceDeserializeSeed::into_result` (src/de.rs:800-808).  The
`result.unwrap_err()` call panics when `result` is `Ok`; the panic is
embedded as `Option.none`. -/
def InplaceDeserializeSeed.into_result :
    InplaceDeserializeSeed T Val → InplaceDeserializeResult Unit →
    Option (Except DeserializeError Val)
  | .value v, _ => some (.ok v)
  | _, .error e => some (.error (DeserializeError.fromInplace e))
  | _, .ok _ => Option.none

/-- Mirrors `InplaceDeserializeSeed::into_result_option` (src/de.rs:810-824):
`Ok(None)` passes through as exhaustion; otherwise the slot must hold a
value, and `result.unwrap_err()` panics (embedded as `Option.none`) when
`result` is `Ok(Some _)` but the slot holds no value. -/
def InplaceDeserializeSeed.into_result_option {U : Type} :
    InplaceDeserializeSeed T Val → InplaceDeserializeResult (Option U) →
    Option (Except DeserializeError (Option Val))
  | _, .ok Option.none => some (.ok Option.none)
  | .value v, _ => some (.ok (some v))
  | _, .error e => some (.error (DeserializeError.fromInplace e))
  | _, .ok (some _) => Option.none

-- InplaceSeqAccess / InplaceMapAccess
-- ---------------------------------------------------------------------------

/-- Mirrors `enum InplaceSeqAccess` (src/de.rs:1016-1022): only `Error`
(failed) and `SeqAccess` (holding the cursor); there is no empty state. -/
inductive InplaceSeqAccess (A E : Type) where
  | error (e : E)
  | seqAccess (a : A)
deriving DecidableEq

/-- Mirrors `InplaceSeqAccess::next_with` (src/de.rs:1032-1044).  The
closure receives the cursor by `&mut` (embedded: `A → σ → A × σ × result`)
and may capture seeds by mutable reference (state `σ`).  On success the
mutated cursor is re-stored as `SeqAccess` (Holding); on failure the
mutated cursor is discarded and the backend error is stored as `Error`. -/
def InplaceSeqAccess.next_with {T : Type} :
    InplaceSeqAccess A E → σ → (A → σ → A × σ × Except E T) →
    InplaceSeqAccess A E × σ × InplaceDeserializeResult T
  | .seqAccess a, st, f =>
    match f a st with
    | (a', st', .ok t) => (.seqAccess a', st', .ok t)
    | (_, st', .error e) => (.error e, st', .error .error)
  | .error e, st, _ => (.error e, st, .error .notSeqAccess)

/-- Mirrors `InplaceSeqAccess::into_result` (src/de.rs:1025-1030). -/
def InplaceSeqAccess.into_result (custom : String → E)
    (s : InplaceSeqAccess A E) (result : Except DeserializeError Unit) :
    Except E Unit :=
  match result with
  | .ok _ => .ok ()
  | .error err =>
    .error (match s with
      | .error e => e
      | _ => err.into_error custom)

/-- Mirrors `InplaceSeqAccess::dyn_size_hint` (src/de.rs:1055-1061): the
cursor's `size_hint` (passed as `sh`) is consulted only in the `SeqAccess`
state; otherwise `None`. -/
def InplaceSeqAccess.dyn_size_hint (sh : A → Option Nat) :
    InplaceSeqAccess A E → Option Nat
  | .seqAccess a => sh a
  | _ => Option.none

/-- Mirrors `enum InplaceMapAccess` (src/de.rs:1068-1074). -/
inductive InplaceMapAccess (A E : Type) where
  | error (e : E)
  | mapAccess (a : A)
deriving DecidableEq

/-- Mirrors `InplaceMapAccess::next_with` (src/de.rs:1084-1097); identical
take–call–restore discipline to the sequence cursor. -/
def InplaceMapAccess.next_with {T : Type} :
    InplaceMapAccess A E → σ → (A → σ → A × σ × Except E T) →
    InplaceMapAccess A E × σ × InplaceDeserializeResult T
  | .mapAccess a, st, f =>
    match f a st with
    | (a', st', .ok t) => (.mapAccess a', st', .ok t)
    | (_, st', .error e) => (.error e, st', .error .error)
  | .error e, st, _ => (.error e, st, .error .notMapAccess)

/-- Mirrors `InplaceMapAccess::dyn_size_hint` (src/de.rs:1122-1128). -/
def InplaceMapAccess.dyn_size_hint (sh : A → Option Nat) :
    InplaceMapAccess A E → Option Nat
  | .mapAccess a => sh a
  | _ => Option.none

-- InplaceEnumAccess
-- ---------------------------------------------------------------------------

/-- Mirrors `enum InplaceEnumAccess` (src/de.rs:1135-1146): `None`,
`Error`, the pre-resolution `EnumAccess` state and the post-resolution
`VariantAccess` state. -/
inductive InplaceEnumAccess (A Var E : Type) where
  | none
  | error (e : E)
  | enumAccess (a : A)
  | variantAccess (v : Var)
deriving DecidableEq

/-- Mirrors `EnumAccess::dyn_variant` for `InplaceEnumAccess`
(src/de.rs:1173-1193).  `f` embeds `access.variant_seed(seed)` (the seed,
captured by mutable reference, is part of `σ`); in the erased use the seed
value component of its result is `()`, so `f` returns the variant cursor
alone.  Legal only in the `EnumAccess` state; success stores the variant
cursor as `VariantAccess` (the Rust method then returns `self` as the
`&mut dyn VariantAccess`, embedded as `Ok ()`); failure stores `Error`. -/
def InplaceEnumAccess.dyn_variant :
    InplaceEnumAccess A Var E → σ → (A → σ → σ × Except E Var) →
    InplaceEnumAccess A Var E × σ × InplaceDeserializeResult Unit
  | .enumAccess a, st, f =>
    match f a st with
    | (st', .ok var) => (.variantAccess var, st', .ok ())
    | (st', .error e) => (.error e, st', .error .error)
  | .none, st, _ => (.none, st, .error .notEnumAccess)
  | .error e, st, _ => (.error e, st, .error .notEnumAccess)
  | .variantAccess v, st, _ => (.variantAccess v, st, .error .notEnumAccess)

/-- Mirrors `InplaceEnumAccess::next_variant_with` (src/de.rs:1156-1170),
the shared body of the four payload-consumption methods.  Legal only in
the `VariantAccess` state; the cursor is taken (`mem::take` leaves `None`),
so on success the slot stays `None`; on failure the backend error is
stored as `Error`. -/
def InplaceEnumAccess.next_variant_with :
    InplaceEnumAccess A Var E → σ → (Var → σ → σ × Except E Unit) →
    InplaceEnumAccess A Var E × σ × InplaceDeserializeResult Unit
  | .variantAccess v, st, f =>
    match f v st with
    | (st', .ok _) => (.none, st', .ok ())
    | (st', .error e) => (.error e, st', .error .error)
  | .none, st, _ => (.none, st, .error .notVariantAccess)
  | .error e, st, _ => (.error e, st, .error .notVariantAccess)
  | .enumAccess a, st, _ => (.enumAccess a, st, .error .notVariantAccess)

/-- Mirrors `InplaceEnumAccess::into_result` (src/de.rs:1149-1154). -/
def InplaceEnumAccess.into_result (custom : String → E)
    (s : InplaceEnumAccess A Var E) (result : Except DeserializeError Unit) :
    Except E Unit :=
  match result with
  | .ok _ => .ok ()
  | .error err =>
    .error (match s with
      | .error e => e
      | _ => err.into_error custom)

-- Serializer side
-- ---------------------------------------------------------------------------

/-- Mirrors `InplaceSerializeError` (src/ser.rs:1107-1134): every
constructor is nullary — the signal carries no payload. -/
inductive InplaceSerializeError where
  | error
  | notSerializer
  | notSerializeSeq
  | notSerializeTuple
  | notSerializeTupleStruct
  | notSerializeTupleVariant
  | notSerializeMap
  | notSerializeStruct
  | notSerializeStructVariant
deriving DecidableEq

/-- Mirrors the `Display` impl for `InplaceSerializeError`
(src/ser.rs:1136-1150), typos included. -/
def InplaceSerializeError.display : InplaceSerializeError → String
  | .error => "the in-place serialization has done unsuccessfually"
  | .notSerializer => "the in-place serializer is not ready"
  | .notSerializeSeq => "the in-place serializer is not ready to serialize the content of the sequence"
  | .notSerializeTuple => "the in-place serializer is not ready to serialize the content of the tuple"
  | .notSerializeTupleStruct => "the in-place serializer is not ready to serialize the content of the tuple struct"
  | .notSerializeTupleVariant => "the in-place serializer is not ready to serialize the content of the tuple variant"
  | .notSerializeMap => "the in-place serializer is not ready to serialize the content of the map"
  | .notSerializeStruct => "the in-place serializer is not ready to serialize the content of the struct"
  | .notSerializeStructVariant => "the in-place serializer is not ready to serialize the content of the struct variant"

/-- Mirrors `InplaceSerializeResult<T>` (src/ser.rs:26). -/
abbrev InplaceSerializeResult (T : Type) : Type := Except InplaceSerializeError T

/-- Mirrors `SerializeError` (src/ser.rs:1160): a wrapper around
`InplaceSerializeResult<Box<str>>`. -/
structure SerializeError where
  repr : Except InplaceSerializeError String
deriving DecidableEq

/-- Mirrors `serde::ser::Error::custom` for `SerializeError`
(src/ser.rs:1199-1205). -/
def SerializeError.custom (msg : String) : SerializeError :=
  ⟨.ok msg⟩

/-- Mirrors `From<InplaceSerializeError> for SerializeError`
(src/ser.rs:1191-1197). -/
def SerializeError.fromInplace (e : InplaceSerializeError) : SerializeError :=
  ⟨.error e⟩

/-- Mirrors `SerializeError::into_error` (src/ser.rs:1162-1172): both
branches rebuild the target error via its `custom` constructor on the
displayed text. -/
def SerializeError.into_error (custom : String → E) (e : SerializeError) : E :=
  match e.repr with
  | .ok msg => custom msg
  | .error err => custom err.display

/-- Bundles the associated types of a `serde::Serializer` backend `S`:
`S::Ok`, `S::Error`, and the seven composite builder types. -/
structure SerTypes where
  Srl : Type
  Ok : Type
  Err : Type
  Seq : Type
  Tup : Type
  TupStruct : Type
  TupVariant : Type
  Map : Type
  Struct : Type
  StructVariant : Type

/-- Mirrors `enum InplaceSerializer` (src/ser.rs:478-511), the Slot of the
Serializer Adapter: `None`, the terminal `Ok`/`Error` states, the
`Serializer` Holding state and the seven builder continuation states. -/
inductive InplaceSerializer (S : SerTypes) where
  | none
  | ok (v : S.Ok)
  | error (e : S.Err)
  | serializer (s : S.Srl)
  | serializeSeq (b : S.Seq)
  | serializeTuple (b : S.Tup)
  | serializeTupleStruct (b : S.TupStruct)
  | serializeTupleVariant (b : S.TupVariant)
  | serializeMap (b : S.Map)
  | serializeStruct (b : S.Struct)
  | serializeStructVariant (b : S.StructVariant)

/-- Mirrors `InplaceSerializer::take` (src/ser.rs:517-524): extracts the
held serializer (leaving `None`, per `mem::take`) or fails with
`NotSerializer` leaving the slot untouched. -/
def InplaceSerializer.take :
    InplaceSerializer S → InplaceSerializer S × InplaceSerializeResult S.Srl
  | .serializer ser => (.none, .ok ser)
  | s => (s, .error .notSerializer)

/-- Mirrors `InplaceSerializer::take_seq` (src/ser.rs:526-533). -/
def InplaceSerializer.take_seq :
    InplaceSerializer S → InplaceSerializer S × InplaceSerializeResult S.Seq
  | .serializeSeq b => (.none, .ok b)
  | s => (s, .error .notSerializeSeq)

/-- Mirrors `InplaceSerializer::take_map` (src/ser.rs:562-569). -/
def InplaceSerializer.take_map :
    InplaceSerializer S → InplaceSerializer S × InplaceSerializeResult S.Map
  | .serializeMap b => (.none, .ok b)
  | s => (s, .error .notSerializeMap)

/-- Mirrors `InplaceSerializer::serialize_with` (src/ser.rs:645-660),
generic over the take accessor, the success re-wrapping constructor and
the by-value backend call: take the payload (propagating the `Not*` error
with the slot untouched), run the backend call, store the result through
`then'` on success or store the backend error as `Error` and return the
content-free `Error` signal on failure. -/
def InplaceSerializer.serialize_with {T U : Type}
    (s : InplaceSerializer S)
    (take : InplaceSerializer S → InplaceSerializer S × InplaceSerializeResult T)
    (then' : U → InplaceSerializer S)
    (serialize : T → Except S.Err U) :
    InplaceSerializer S × InplaceSerializeResult Unit :=
  match take s with
  | (s', .error e) => (s', .error e)
  | (_, .ok t) =>
    match serialize t with
    | .ok u => (then' u, .ok ())
    | .error e => (.error e, .error .error)

/-- Mirrors `SerializeSeq::dyn_serialize_element` for `InplaceSerializer`
(src/ser.rs:946-950): `serialize_with_mut` (src/ser.rs:662-675)
specialized at `get_seq` (src/ser.rs:589-595), as the source method is.
The builder is accessed by `&mut` (embedded: `f` returns the mutated
builder); on success the mutated builder stays in the `SerializeSeq`
Holding state, on failure the mutated builder is discarded and the
backend error is stored as `Error`. -/
def InplaceSerializer.dyn_serialize_element_seq
    (s : InplaceSerializer S) (f : S.Seq → S.Seq × Except S.Err Unit) :
    InplaceSerializer S × InplaceSerializeResult Unit :=
  match s with
  | .serializeSeq b =>
    match f b with
    | (b', .ok _) => (.serializeSeq b', .ok ())
    | (_, .error e) => (.error e, .error .error)
  | s => (s, .error .notSerializeSeq)

/-- Mirrors `SerializeSeq::dyn_end` for `InplaceSerializer`
(src/ser.rs:952-958): `serialize_with(take_seq, Ok, S::SerializeSeq::end)`. -/
def InplaceSerializer.dyn_end_seq
    (s : InplaceSerializer S) (endf : S.Seq → Except S.Err S.Ok) :
    InplaceSerializer S × InplaceSerializeResult Unit :=
  serialize_with s take_seq .ok endf

/-- Mirrors `SerializeMap::dyn_end` for `InplaceSerializer`
(src/ser.rs:1040-1046). -/
def InplaceSerializer.dyn_end_map
    (s : InplaceSerializer S) (endf : S.Map → Except S.Err S.Ok) :
    InplaceSerializer S × InplaceSerializeResult Unit :=
  serialize_with s take_map .ok endf

/-- Mirrors `Serializer::dyn_is_human_readable` for `InplaceSerializer`
(src/ser.rs:933-939): the backend is queried only in the `Serializer`
state; every other state — including the seven builder continuation
states — answers `true`. -/
def InplaceSerializer.dyn_is_human_readable (hr : S.Srl → Bool) :
    InplaceSerializer S → Bool
  | .serializer ser => hr ser
  | _ => true

/-- The concrete-backend methods the claims exercise, as fields of one
record: each embeds the corresponding `serde::Serializer` method of the
wrapped backend. -/
structure SerBackend (S : SerTypes) where
  serialize_bool : S.Srl → Bool → Except S.Err S.Ok
  serialize_i64 : S.Srl → Int → Except S.Err S.Ok
  serialize_i128 : S.Srl → Int → Except S.Err S.Ok
  serialize_u128 : S.Srl → Nat → Except S.Err S.Ok
  serialize_seq : S.Srl → Option Nat → Except S.Err S.Seq
  is_human_readable : S.Srl → Bool

/-- Mirrors `Serializer::dyn_serialize_bool` for `InplaceSerializer`
(src/ser.rs:682-686). -/
def InplaceSerializer.dyn_serialize_bool (B : SerBackend S)
    (s : InplaceSerializer S) (v : Bool) :
    InplaceSerializer S × InplaceSerializeResult Unit :=
  serialize_with s take .ok (fun ser => B.serialize_bool ser v)

/-- Mirrors `Serializer::dyn_serialize_i128` for `InplaceSerializer`
(src/ser.rs:712-716): the mirror trait and the state holder implement the
128-bit method in full. -/
def InplaceSerializer.dyn_serialize_i128 (B : SerBackend S)
    (s : InplaceSerializer S) (v : Int) :
    InplaceSerializer S × InplaceSerializeResult Unit :=
  serialize_with s take .ok (fun ser => B.serialize_i128 ser v)

/-- Mirrors `Serializer::dyn_serialize_u128` for `InplaceSerializer`
(src/ser.rs:742-746). -/
def InplaceSerializer.dyn_serialize_u128 (B : SerBackend S)
    (s : InplaceSerializer S) (v : Nat) :
    InplaceSerializer S × InplaceSerializeResult Unit :=
  serialize_with s take .ok (fun ser => B.serialize_u128 ser v)

/-- Mirrors `Serializer::dyn_serialize_seq` for `InplaceSerializer`
(src/ser.rs:835-845): `serialize_with(take, SerializeSeq, serialize_seq)`,
then returns `self` as the `&mut dyn SerializeSeq` (the returned handle is
the same slot, so it is not part of the embedded result). -/
def InplaceSerializer.dyn_serialize_seq (B : SerBackend S)
    (s : InplaceSerializer S) (len : Option Nat) :
    InplaceSerializer S × InplaceSerializeResult Unit :=
  serialize_with s take .serializeSeq (fun ser => B.serialize_seq ser len)

/-- Mirrors `serialize_bool` of `impl serde::Serializer for &mut dyn
Serializer` (src/ser.rs:1244-1246): forwards to the mirror method and
converts the signal via `SerializeError::from`. -/
def bridge_serialize_bool (B : SerBackend S)
    (s : InplaceSerializer S) (v : Bool) :
    InplaceSerializer S × Except SerializeError Unit :=
  match InplaceSerializer.dyn_serialize_bool B s v with
  | (s', .ok _) => (s', .ok ())
  | (s', .error e) => (s', .error (SerializeError.fromInplace e))

/-- Modelled from the spec and from serde's provided default: the bridge
impl `serde::Serializer for &mut dyn Serializer` (src/ser.rs:1233-1404)
defines `serialize_bool` through `serialize_struct_variant` but does not
override `serialize_i128`, so serde's defaulted method body runs, which
returns `Err(Error::custom("i128 is not supported"))` without touching the
receiver.  The backend record `B` is a parameter only to show the result
does not depend on it. -/
def bridge_serialize_i128 (B : SerBackend S)
    (s : InplaceSerializer S) (v : Int) :
    InplaceSerializer S × Except SerializeError Unit :=
  (s, .error (SerializeError.custom "i128 is not supported"))

/-- Modelled from the spec and from serde's provided default, as
`bridge_serialize_i128`: `serialize_u128` is not overridden either
(src/ser.rs:1233-1404), so serde's default returns
`Err(Error::custom("u128 is not supported"))`. -/
def bridge_serialize_u128 (B : SerBackend S)
    (s : InplaceSerializer S) (v : Nat) :
    InplaceSerializer S × Except SerializeError Unit :=
  (s, .error (SerializeError.custom "u128 is not supported"))

/-- Mirrors `impl serde::Serialize for dyn Serialize` (src/ser.rs:1215-1231):
wrap the backend in a fresh `Serializer` slot, run the value's
`dyn_serialize` (passed as `run`, threading the slot), then read the slot:
`Ok`/`Error` yield the backend's own value or error; otherwise
`result.unwrap_err()` — which panics when `result` is `Ok`, embedded as
`Option.none` — is converted via `into_error` (`custom` embeds the
backend's `ser::Error::custom`). -/
def serde_serialize_dyn (custom : String → S.Err)
    (run : InplaceSerializer S → InplaceSerializer S × Except SerializeError Unit)
    (ser : S.Srl) : Option (Except S.Err S.Ok) :=
  match run (.serializer ser) with
  | (slot, result) =>
    match slot with
    | .ok v => some (.ok v)
    | .error e => some (.error e)
    | _ =>
      match result with
      | .error r => some (.error (r.into_error custom))
      | .ok _ => Option.none

-- Deserializer backend and the hint mirror methods
-- ---------------------------------------------------------------------------

/-- The per-hint methods of a concrete `serde::Deserializer` backend `D`
with error type `E`, each taking the visitor (of type `Vis`, threaded by
state passing in place of the `&mut dyn Visitor` reference).  Static
`&'static str` / slice arguments are embedded as `String` / `List String`. -/
structure DeBackend (D E Vis : Type) where
  deserialize_any : D → Vis → Vis × Except E Unit
  deserialize_bool : D → Vis → Vis × Except E Unit
  deserialize_i8 : D → Vis → Vis × Except E Unit
  deserialize_i16 : D → Vis → Vis × Except E Unit
  deserialize_i32 : D → Vis → Vis × Except E Unit
  deserialize_i64 : D → Vis → Vis × Except E Unit
  deserialize_i128 : D → Vis → Vis × Except E Unit
  deserialize_u8 : D → Vis → Vis × Except E Unit
  deserialize_u16 : D → Vis → Vis × Except E Unit
  deserialize_u32 : D → Vis → Vis × Except E Unit
  deserialize_u64 : D → Vis → Vis × Except E Unit
  deserialize_u128 : D → Vis → Vis × Except E Unit
  deserialize_f32 : D → Vis → Vis × Except E Unit
  deserialize_f64 : D → Vis → Vis × Except E Unit
  deserialize_char : D → Vis → Vis × Except E Unit
  deserialize_str : D → Vis → Vis × Except E Unit
  deserialize_string : D → Vis → Vis × Except E Unit
  deserialize_bytes : D → Vis → Vis × Except E Unit
  deserialize_byte_buf : D → Vis → Vis × Except E Unit
  deserialize_option : D → Vis → Vis × Except E Unit
  deserialize_unit : D → Vis → Vis × Except E Unit
  deserialize_unit_struct : D → String → Vis → Vis × Except E Unit
  deserialize_newtype_struct : D → String → Vis → Vis × Except E Unit
  deserialize_seq : D → Vis → Vis × Except E Unit
  deserialize_tuple : D → Nat → Vis → Vis × Except E Unit
  deserialize_tuple_struct : D → String → Nat → Vis → Vis × Except E Unit
  deserialize_map : D → Vis → Vis × Except E Unit
  deserialize_struct : D → String → List String → Vis → Vis × Except E Unit
  deserialize_enum : D → String → List String → Vis → Vis × Except E Unit
  deserialize_identifier : D → Vis → Vis × Except E Unit
  deserialize_ignored_any : D → Vis → Vis × Except E Unit

/-- Mirrors the `Deserializer for InplaceDeserializer` hint methods
(src/de.rs:548-773): every `dyn_deserialize_<hint>` is
`self.deserialize_with(|de| de.deserialize_<hint>(args, visitor))`.  The
dispatch is embedded as a function of the hint constructor below; each
field of `B` is reached by exactly its own hint. -/
inductive DeHint where
  | any | bool | i8 | i16 | i32 | i64 | i128 | u8 | u16 | u32 | u64 | u128
  | f32 | f64 | char | str | string | bytes | byteBuf | option | unit
  | unitStruct (name : String)
  | newtypeStruct (name : String)
  | seq
  | tuple (len : Nat)
  | tupleStruct (name : String) (len : Nat)
  | map
  | structHint (name : String) (fields : List String)
  | enumHint (name : String) (variants : List String)
  | identifier | ignoredAny
deriving DecidableEq

/-- Selects the backend method matched to a hint, exactly as each
`dyn_deserialize_<hint>` body does (src/de.rs:548-773). -/
def DeBackend.method (B : DeBackend D E Vis) : DeHint → D → Vis → Vis × Except E Unit
  | .any => B.deserialize_any
  | .bool => B.deserialize_bool
  | .i8 => B.deserialize_i8
  | .i16 => B.deserialize_i16
  | .i32 => B.deserialize_i32
  | .i64 => B.deserialize_i64
  | .i128 => B.deserialize_i128
  | .u8 => B.deserialize_u8
  | .u16 => B.deserialize_u16
  | .u32 => B.deserialize_u32
  | .u64 => B.deserialize_u64
  | .u128 => B.deserialize_u128
  | .f32 => B.deserialize_f32
  | .f64 => B.deserialize_f64
  | .char => B.deserialize_char
  | .str => B.deserialize_str
  | .string => B.deserialize_string
  | .bytes => B.deserialize_bytes
  | .byteBuf => B.deserialize_byte_buf
  | .option => B.deserialize_option
  | .unit => B.deserialize_unit
  | .unitStruct name => fun d => B.deserialize_unit_struct d name
  | .newtypeStruct name => fun d => B.deserialize_newtype_struct d name
  | .seq => B.deserialize_seq
  | .tuple len => fun d => B.deserialize_tuple d len
  | .tupleStruct name len => fun d => B.deserialize_tuple_struct d name len
  | .map => B.deserialize_map
  | .structHint name fields => fun d => B.deserialize_struct d name fields
  | .enumHint name variants => fun d => B.deserialize_enum d name variants
  | .identifier => B.deserialize_identifier
  | .ignoredAny => B.deserialize_ignored_any

/-- Mirrors `dyn_deserialize_<hint>` for `InplaceDeserializer`
(src/de.rs:548-773): forward the hint to the backend's matching method
through `deserialize_with`, with the visitor as the threaded state. -/
def InplaceDeserializer.dyn_deserialize (B : DeBackend D E Vis) (h : DeHint)
    (s : InplaceDeserializer D E) (vis : Vis) :
    InplaceDeserializer D E × Vis × InplaceDeserializeResult Unit :=
  deserialize_with s vis (B.method h)

/-- The hint each method of `impl serde::Deserializer for &mut dyn
Deserializer` (src/de.rs:1330-1616) forwards to the wrapped backend.
Transcribed method by method from the source bodies: every
`deserialize_<hint>` constructs `InplaceVisitor::Visitor(visitor)` and
calls `self.dyn_deserialize_<hint>` — except `deserialize_bool`
(src/de.rs:1342-1349), whose body calls `self.dyn_deserialize_any`. -/
def bridgeForward : DeHint → DeHint
  | .bool => .any
  | h => h

/-- Mirrors the hint methods of `impl serde::Deserializer for &mut dyn
Deserializer` (src/de.rs:1330-1616): wrap the concrete visitor `v` in a
fresh `InplaceVisitor` slot, invoke the mirror method selected by
`bridgeForward` (faithful to the source, including the `deserialize_bool`
body calling `dyn_deserialize_any`), then read the visitor slot through
`into_result`. -/
def bridge_deserialize (B : DeBackend D E (InplaceVisitor V Val)) (h : DeHint)
    (s : InplaceDeserializer D E) (v : V) :
    InplaceDeserializer D E × Option (Except DeserializeError Val) :=
  match InplaceDeserializer.dyn_deserialize B (bridgeForward h) s (.visitor v) with
  | (s', iv', r) => (s', iv'.into_result r)

/-- Modelled from the spec and from serde's provided default: the bridge
impl `serde::Deserializer for &mut dyn Deserializer` (src/de.rs:1330-1616)
defines `deserialize_any` through `deserialize_ignored_any` but does not
override `deserialize_i128`, so serde's defaulted body runs, which returns
`Err(Error::custom("i128 is not supported"))` without calling any mirror
method; the backend record `B` and the concrete visitor `v` are parameters
only to show the result does not depend on them. -/
def bridge_deserialize_i128 (B : DeBackend D E (InplaceVisitor V Val))
    (s : InplaceDeserializer D E) (v : V) :
    InplaceDeserializer D E × Option (Except DeserializeError Val) :=
  (s, some (.error (DeserializeError.custom "i128 is not supported")))

/-- Modelled from the spec and from serde's provided default, as
`bridge_deserialize_i128`: `deserialize_u128` is not overridden either. -/
def bridge_deserialize_u128 (B : DeBackend D E (InplaceVisitor V Val))
    (s : InplaceDeserializer D E) (v : V) :
    InplaceDeserializer D E × Option (Except DeserializeError Val) :=
  (s, some (.error (DeserializeError.custom "u128 is not supported")))

/-- A probe backend whose every method fails with its own name, so that
evaluating a bridge method observes exactly which backend method was
reached (the error lands in the Slot as the `Failed` payload). -/
def probeBackend : DeBackend Unit String (InplaceVisitor Unit Unit) where
  deserialize_any := fun _ iv => (iv, .error "deserialize_any")
  deserialize_bool := fun _ iv => (iv, .error "deserialize_bool")
  deserialize_i8 := fun _ iv => (iv, .error "deserialize_i8")
  deserialize_i16 := fun _ iv => (iv, .error "deserialize_i16")
  deserialize_i32 := fun _ iv => (iv, .error "deserialize_i32")
  deserialize_i64 := fun _ iv => (iv, .error "deserialize_i64")
  deserialize_i128 := fun _ iv => (iv, .error "deserialize_i128")
  deserialize_u8 := fun _ iv => (iv, .error "deserialize_u8")
  deserialize_u16 := fun _ iv => (iv, .error "deserialize_u16")
  deserialize_u32 := fun _ iv => (iv, .error "deserialize_u32")
  deserialize_u64 := fun _ iv => (iv, .error "deserialize_u64")
  deserialize_u128 := fun _ iv => (iv, .error "deserialize_u128")
  deserialize_f32 := fun _ iv => (iv, .error "deserialize_f32")
  deserialize_f64 := fun _ iv => (iv, .error "deserialize_f64")
  deserialize_char := fun _ iv => (iv, .error "deserialize_char")
  deserialize_str := fun _ iv => (iv, .error "deserialize_str")
  deserialize_string := fun _ iv => (iv, .error "deserialize_string")
  deserialize_bytes := fun _ iv => (iv, .error "deserialize_bytes")
  deserialize_byte_buf := fun _ iv => (iv, .error "deserialize_byte_buf")
  deserialize_option := fun _ iv => (iv, .error "deserialize_option")
  deserialize_unit := fun _ iv => (iv, .error "deserialize_unit")
  deserialize_unit_struct := fun _ _ iv => (iv, .error "deserialize_unit_struct")
  deserialize_newtype_struct := fun _ _ iv => (iv, .error "deserialize_newtype_struct")
  deserialize_seq := fun _ iv => (iv, .error "deserialize_seq")
  deserialize_tuple := fun _ _ iv => (iv, .error "deserialize_tuple")
  deserialize_tuple_struct := fun _ _ _ iv => (iv, .error "deserialize_tuple_struct")
  deserialize_map := fun _ iv => (iv, .error "deserialize_map")
  deserialize_struct := fun _ _ _ iv => (iv, .error "deserialize_struct")
  deserialize_enum := fun _ _ _ iv => (iv, .error "deserialize_enum")
  deserialize_identifier := fun _ iv => (iv, .error "deserialize_identifier")
  deserialize_ignored_any := fun _ iv => (iv, .error "deserialize_ignored_any")

/-- The name of the backend method a hint ought to reach (the matching
method, as the spec states). -/
def DeHint.methodName : DeHint → String
  | .any => "deserialize_any"
  | .bool => "deserialize_bool"
  | .i8 => "deserialize_i8"
  | .i16 => "deserialize_i16"
  | .i32 => "deserialize_i32"
  | .i64 => "deserialize_i64"
  | .i128 => "deserialize_i128"
  | .u8 => "deserialize_u8"
  | .u16 => "deserialize_u16"
  | .u32 => "deserialize_u32"
  | .u64 => "deserialize_u64"
  | .u128 => "deserialize_u128"
  | .f32 => "deserialize_f32"
  | .f64 => "deserialize_f64"
  | .char => "deserialize_char"
  | .str => "deserialize_str"
  | .string => "deserialize_string"
  | .bytes => "deserialize_bytes"
  | .byteBuf => "deserialize_byte_buf"
  | .option => "deserialize_option"
  | .unit => "deserialize_unit"
  | .unitStruct _ => "deserialize_unit_struct"
  | .newtypeStruct _ => "deserialize_newtype_struct"
  | .seq => "deserialize_seq"
  | .tuple _ => "deserialize_tuple"
  | .tupleStruct _ _ => "deserialize_tuple_struct"
  | .map => "deserialize_map"
  | .structHint _ _ => "deserialize_struct"
  | .enumHint _ _ => "deserialize_enum"
  | .identifier => "deserialize_identifier"
  | .ignoredAny => "deserialize_ignored_any"

-- Error carrier (src/error.rs, feature `error` enabled: full fidelity)
-- ---------------------------------------------------------------------------

/-- Mirrors `repr::Unexpected` (src/error.rs:471-515), the owned version of
`serde::de::Unexpected`.  The `f64` payload of `Float` is embedded as its
rendered text (floating point has no shallow embedding); no claim touches
it. -/
inductive Unexpected where
  | bool (v : Bool)
  | unsigned (v : Nat)
  | signed (v : Int)
  | float (rendered : String)
  | char (v : Char)
  | str (v : String)
  | bytes (v : List Nat)
  | unit
  | option
  | newtypeStruct
  | seq
  | map
  | enum
  | unitVariant
  | newtypeVariant
  | tupleVariant
  | structVariant
  | other (v : String)
deriving DecidableEq

/-- Rust's `Debug` rendering of a `&str` (quotes added); exact for strings
free of characters that need escaping, which is all any claim uses. -/
def debugStr (s : String) : String := "\"" ++ s ++ "\""

/-- Mirrors `impl Display for Unexpected` (src/error.rs:542-565). -/
def Unexpected.display : Unexpected → String
  | .bool v => s!"boolean `{v}`"
  | .unsigned v => s!"integer `{v}`"
  | .signed v => s!"integer `{v}`"
  | .float rendered => s!"floating point `{rendered}`"
  | .char v => s!"character `{v}`"
  | .str v => "string " ++ debugStr v
  | .bytes _ => "byte array"
  | .unit => "unit value"
  | .option => "Option value"
  | .newtypeStruct => "newtype struct"
  | .seq => "sequence"
  | .map => "map"
  | .enum => "enum"
  | .unitVariant => "unit variant"
  | .newtypeVariant => "newtype variant"
  | .tupleVariant => "tuple variant"
  | .structVariant => "struct variant"
  | .other v => v

/-- Mirrors `repr::ErrorCode` (src/error.rs:444-468): the seven classified
deserialization error kinds plus `Custom`.  `&dyn Expected` arguments are
captured via `to_string`, hence `String` here. -/
inductive ErrorCode where
  | custom (msg : String)
  | invalidType (unexp : Unexpected) (exp : String)
  | invalidValue (unexp : Unexpected) (exp : String)
  | invalidLength (len : Nat) (exp : String)
  | unknownVariant (variant : String) (expected : List String)
  | unknownField (field : String) (expected : List String)
  | missingField (field : String)
  | duplicateField (field : String)
deriving DecidableEq

/-- Mirrors the `Some(_)` arms of `impl Display for Repr`
(src/error.rs:316-362), with the source's exact texts (including the
"there are no variants" wording reused for unknown fields). -/
def ErrorCode.display : ErrorCode → String
  | .custom msg => "Custom(" ++ debugStr msg ++ ")"
  | .invalidType unexp exp =>
    "invalid type: " ++ unexp.display ++ ", expected " ++ exp
  | .invalidValue unexp exp =>
    "invalid value: " ++ unexp.display ++ ", expected " ++ exp
  | .invalidLength len exp => s!"invalid length: {len}, expected {exp}"
  | .unknownVariant variant expected =>
    match expected with
    | [] => s!"unknown variant: {variant}, there are no variants"
    | [a] => s!"unknown variant: {variant}, expected `{a}`"
    | [a, b] => s!"unknown variant: {variant}, expected `{a}` or `{b}`"
    | a :: b => s!"unknown variant: {variant}, expected one of `{a}`"
        ++ String.join (b.map (fun x => s!", `{x}`"))
  | .unknownField field expected =>
    match expected with
    | [] => s!"unknown field: {field}, there are no variants"
    | [a] => s!"unknown field: {field}, expected `{a}`"
    | [a, b] => s!"unknown field: {field}, expected `{a}` or `{b}`"
    | a :: b => s!"unknown field: {field}, expected one of `{a}`"
        ++ String.join (b.map (fun x => s!", `{x}`"))
  | .missingField field => s!"missing field `{field}`"
  | .duplicateField field => s!"duplicate field `{field}`"

/-- Mirrors `repr::Repr` in the full-fidelity configuration
(src/error.rs:249-251): an optional boxed `ErrorCode`. -/
structure ErrRepr where
  repr : Option ErrorCode
deriving DecidableEq

/-- Mirrors `impl Display for Repr` (src/error.rs:316-362) including the
`None` arm. -/
def ErrRepr.display (r : ErrRepr) : String :=
  match r.repr with
  | some code => code.display
  | Option.none => "an error occurred during dynamic (de)serialization"

/-- Mirrors `impl de::Error for Repr`, constructors `custom` through
`duplicate_field` (src/error.rs:376-441): each stores its matching
`ErrorCode`. -/
def ErrRepr.custom (msg : String) : ErrRepr := ⟨some (.custom msg)⟩

/-- Mirrors `Repr::invalid_type` (src/error.rs:385-392). -/
def ErrRepr.invalid_type (unexp : Unexpected) (exp : String) : ErrRepr :=
  ⟨some (.invalidType unexp exp)⟩

/-- Mirrors `Repr::invalid_value` (src/error.rs:394-401). -/
def ErrRepr.invalid_value (unexp : Unexpected) (exp : String) : ErrRepr :=
  ⟨some (.invalidValue unexp exp)⟩

/-- Mirrors `Repr::invalid_length` (src/error.rs:403-410). -/
def ErrRepr.invalid_length (len : Nat) (exp : String) : ErrRepr :=
  ⟨some (.invalidLength len exp)⟩

/-- Mirrors `Repr::unknown_variant` (src/error.rs:412-419). -/
def ErrRepr.unknown_variant (variant : String) (expected : List String) : ErrRepr :=
  ⟨some (.unknownVariant variant expected)⟩

/-- Mirrors `Repr::unknown_field` (src/error.rs:421-428). -/
def ErrRepr.unknown_field (field : String) (expected : List String) : ErrRepr :=
  ⟨some (.unknownField field expected)⟩

/-- Mirrors `Repr::missing_field` (src/error.rs:430-434). -/
def ErrRepr.missing_field (field : String) : ErrRepr := ⟨some (.missingField field)⟩

/-- Mirrors `Repr::duplicate_field` (src/error.rs:436-440). -/
def ErrRepr.duplicate_field (field : String) : ErrRepr := ⟨some (.duplicateField field)⟩

/-- Mirrors `struct Error` (src/error.rs:31-33). -/
structure ErrorCarrier where
  repr : ErrRepr
deriving DecidableEq

/-- Mirrors `impl Display for Error` (src/error.rs:73-78): delegates to the
`Repr` rendering. -/
def ErrorCarrier.display (e : ErrorCarrier) : String := e.repr.display

/-- Mirrors `Error::custom` of `impl de::Error for Error`
(src/error.rs:92-99). -/
def ErrorCarrier.custom (msg : String) : ErrorCarrier := ⟨ErrRepr.custom msg⟩

/-- Mirrors `Error::invalid_type` (src/error.rs:101-107). -/
def ErrorCarrier.invalid_type (unexp : Unexpected) (exp : String) : ErrorCarrier :=
  ⟨ErrRepr.invalid_type unexp exp⟩

/-- Mirrors `Error::invalid_value` (src/error.rs:109-115).  Note the source
body constructs `repr::Repr::invalid_type(unexp, exp)`, not
`Repr::invalid_value`. -/
def ErrorCarrier.invalid_value (unexp : Unexpected) (exp : String) : ErrorCarrier :=
  ⟨ErrRepr.invalid_type unexp exp⟩

/-- Mirrors `Error::invalid_length` (src/error.rs:117-123). -/
def ErrorCarrier.invalid_length (len : Nat) (exp : String) : ErrorCarrier :=
  ⟨ErrRepr.invalid_length len exp⟩

/-- Mirrors `Error::unknown_variant` (src/error.rs:125-131). -/
def ErrorCarrier.unknown_variant (variant : String) (expected : List String) : ErrorCarrier :=
  ⟨ErrRepr.unknown_variant variant expected⟩

/-- Mirrors `Error::unknown_field` (src/error.rs:133-139). -/
def ErrorCarrier.unknown_field (field : String) (expected : List String) : ErrorCarrier :=
  ⟨ErrRepr.unknown_field field expected⟩

/-- Mirrors `Error::missing_field` (src/error.rs:141-147). -/
def ErrorCarrier.missing_field (field : String) : ErrorCarrier :=
  ⟨ErrRepr.missing_field field⟩

/-- Mirrors `Error::duplicate_field` (src/error.rs:149-155). -/
def ErrorCarrier.duplicate_field (field : String) : ErrorCarrier :=
  ⟨ErrRepr.duplicate_field field⟩

/-- The `serde::de::Error` constructor family of an arbitrary concrete
backend error type `E`, used to state reconstruction
(`Repr::into_de_error`). -/
structure DeErrorCtors (E : Type) where
  custom : String → E
  invalid_type : Unexpected → String → E
  invalid_value : Unexpected → String → E
  invalid_length : Nat → String → E
  unknown_variant : String → List String → E
  unknown_field : String → List String → E
  missing_field : String → E
  duplicate_field : String → E

/-- Mirrors `Repr::into_de_error` (src/error.rs:254-277): rebuild the
nearest classified error of the target type `E`. -/
def ErrRepr.into_de_error (C : DeErrorCtors E) (r : ErrRepr) : E :=
  match r.repr with
  | some (.custom msg) => C.custom msg
  | some (.invalidType u exp) => C.invalid_type u exp
  | some (.invalidValue u exp) => C.invalid_value u exp
  | some (.invalidLength len exp) => C.invalid_length len exp
  | some (.unknownVariant v exp) => C.unknown_variant v exp
  | some (.unknownField f exp) => C.unknown_field f exp
  | some (.missingField f) => C.missing_field f
  | some (.duplicateField f) => C.duplicate_field f
  | Option.none => C.custom "an error occurred during dynamic (de)serialization"

-- Visitor mirror and bridge for `visit_bool`
-- ---------------------------------------------------------------------------

/-- Mirrors `Visitor::dyn_visit_bool` for `InplaceVisitor`
(src/de.rs:897-899): `self.visit_with(|visitor| visitor.visit_bool(v))`;
`visitBool` is the wrapped concrete visitor's `visit_bool`, instantiated —
as in `visit_with`'s use — at the `DeserializeError` error type. -/
def InplaceVisitor.dyn_visit_bool (visitBool : V → Bool → Except DeserializeError Val)
    (s : InplaceVisitor V Val) (b : Bool) :
    InplaceVisitor V Val × Except DeserializeError Unit :=
  match visit_with s () (fun v _ => ((), visitBool v b)) with
  | (s', _, r) => (s', r)

/-- Mirrors `visit_bool` of `impl serde::de::Visitor for &mut dyn Visitor`
(src/de.rs:1638-1643): `self.dyn_visit_bool(v).map_err(E::custom)`, with
`Value = ()`; `custom` embeds the backend error type's
`de::Error::custom`, applied to the displayed message. -/
def bridge_visit_bool (visitBool : V → Bool → Except DeserializeError Val)
    (custom : String → E) (s : InplaceVisitor V Val) (b : Bool) :
    InplaceVisitor V Val × Except E Unit :=
  match InplaceVisitor.dyn_visit_bool visitBool s b with
  | (s', .ok _) => (s', .ok ())
  | (s', .error e) => (s', .error (custom e.display))

-- A tiny concrete backend pair (encoder / decoder) for the round-trip claim
-- ---------------------------------------------------------------------------

/-- A tiny concrete encoder: booleans become a single byte.  This plays the
role of the concrete backend pair's encoder `E` in the round-trip claim. -/
def miniSerializeBool (b : Bool) : Except String (List Nat) :=
  .ok [cond b 1 0]

/-- The associated types of the tiny encoder: `Ok` is the byte output,
`Error` is `String`; the builder types are unused. -/
def miniSerTypes : SerTypes :=
  ⟨Unit, List Nat, String, Unit, Unit, Unit, Unit, Unit, Unit, Unit⟩

/-- The tiny encoder as a `SerBackend`: only booleans are supported. -/
def miniSerBackend : SerBackend miniSerTypes where
  serialize_bool := fun _ b => miniSerializeBool b
  serialize_i64 := fun _ _ => .error "miniSer supports only booleans"
  serialize_i128 := fun _ _ => .error "miniSer supports only booleans"
  serialize_u128 := fun _ _ => .error "miniSer supports only booleans"
  serialize_seq := fun _ _ => .error "miniSer supports only booleans"
  is_human_readable := fun _ => false

/-- The tiny concrete decoder's `deserialize_bool`, generic over the serde
visitor it drives (exactly as the Rust generic method is): reads one byte
and calls `visit_bool`.  `mkErr` embeds `de::Error::custom` of the
decoder's error type. -/
def miniDeserializeBool (mkErr : String → E) (visitBool : Vis → Bool → Vis × Except E Val)
    (d : List Nat) (v : Vis) : Vis × Except E Val :=
  match d with
  | 0 :: _ => visitBool v false
  | 1 :: _ => visitBool v true
  | _ => (v, .error (mkErr "expected a boolean byte"))

/-- The tiny decoder's `deserialize_any`: the format is not
self-describing, so the catch-all hint is rejected — as it is for real
non-self-describing backends (bincode, postcard). -/
def miniDeserializeAny (mkErr : String → E) (d : List Nat) (v : Vis) :
    Vis × Except E Val :=
  (v, .error (mkErr "miniDe is not self-describing"))

/-- The serde `bool` visitor: `visit_bool` returns the boolean, generic
over the error type as the real `BoolVisitor` is. -/
def boolVisitorVisitBool (b : Bool) : Except E Bool := .ok b

/-- Direct (non-erased) decoding of a boolean with the tiny decoder:
`bool::deserialize(miniDe)` = `miniDe.deserialize_bool(BoolVisitor)` with
the concrete visitor passed statically. -/
def directDecodeBool (bytes : List Nat) : Except String Bool :=
  (miniDeserializeBool (fun s => s) (fun _ b => ((), boolVisitorVisitBool b)) bytes ()).2

/-- The tiny decoder adapted for the erased path: the same generic methods
(`miniDeserializeBool`, `miniDeserializeAny`), instantiated at the visitor
adapter (`&mut dyn Visitor`, embedded as `InplaceVisitor Unit Bool` state)
driven through `bridge_visit_bool`; every other hint is rejected. -/
def miniErasedBackend : DeBackend (List Nat) String (InplaceVisitor Unit Bool) :=
  let unsupported : List Nat → InplaceVisitor Unit Bool →
      InplaceVisitor Unit Bool × Except String Unit :=
    fun _ iv => (iv, .error "miniDe hint unsupported")
  { deserialize_any := fun d iv => miniDeserializeAny (fun s => s) d iv
    deserialize_bool := fun d iv =>
      miniDeserializeBool (fun s => s)
        (bridge_visit_bool (fun _ b => boolVisitorVisitBool b) (fun s => s)) d iv
    deserialize_i8 := unsupported
    deserialize_i16 := unsupported
    deserialize_i32 := unsupported
    deserialize_i64 := unsupported
    deserialize_i128 := unsupported
    deserialize_u8 := unsupported
    deserialize_u16 := unsupported
    deserialize_u32 := unsupported
    deserialize_u64 := unsupported
    deserialize_u128 := unsupported
    deserialize_f32 := unsupported
    deserialize_f64 := unsupported
    deserialize_char := unsupported
    deserialize_str := unsupported
    deserialize_string := unsupported
    deserialize_bytes := unsupported
    deserialize_byte_buf := unsupported
    deserialize_option := unsupported
    deserialize_unit := unsupported
    deserialize_unit_struct := fun _ _ => unsupported []
    deserialize_newtype_struct := fun _ _ => unsupported []
    deserialize_seq := unsupported
    deserialize_tuple := fun _ _ => unsupported []
    deserialize_tuple_struct := fun _ _ _ => unsupported []
    deserialize_map := unsupported
    deserialize_struct := fun _ _ _ => unsupported []
    deserialize_enum := fun _ _ _ => unsupported []
    deserialize_identifier := unsupported
    deserialize_ignored_any := unsupported }

/-- Erased-path encoding of a boolean with the tiny encoder:
`(b as &dyn Serialize).serialize(miniSer)` through
`impl serde::Serialize for dyn Serialize` and
`impl serde::Serializer for &mut dyn Serializer`. -/
def erasedEncodeBool (b : Bool) : Option (Except String (List Nat)) :=
  serde_serialize_dyn (fun s => s)
    (fun slot => bridge_serialize_bool miniSerBackend slot b) ()

/-- Erased-path decoding of a boolean with the tiny decoder:
`bool::deserialize(&mut dyn Deserializer)` goes through the bridge method
for the `bool` hint. -/
def erasedDecodeBool (bytes : List Nat) : Option (Except DeserializeError Bool) :=
  (bridge_deserialize miniErasedBackend .bool (.deserializer bytes) ()).2

-- Claim theorems
-- ---------------------------------------------------------------------------

/-- C1 (code bug evaluation): for the tiny concrete backend pair, direct
use of encoder then decoder reproduces the value `true` (premise of the
claim holds), and the erased serializer path emits byte-identical output;
but the erased deserializer path fails to reproduce the value, because
`deserialize_bool` of `impl serde::Deserializer for &mut dyn Deserializer`
(src/de.rs:1342-1349) forwards the bool hint to `dyn_deserialize_any`,
which this non-self-describing backend rejects.  So round-trip fidelity
fails on the code even when the premise holds. -/
theorem c1_roundtrip_erased_path_evaluation :
    miniSerBackend.serialize_bool () true = .ok [1]
    ∧ directDecodeBool [1] = .ok true
    ∧ erasedEncodeBool true = some (.ok [1])
    ∧ erasedDecodeBool [1] = some (.error (DeserializeError.fromInplace .error))
    ∧ erasedDecodeBool [1] ≠ some (.ok true) := by
  refine ⟨rfl, rfl, rfl, rfl, ?_⟩
  decide

/-- C2 (code bug evaluation): on the probe backend — whose every method
fails with its own name, so the `Failed` slot records which backend method
the bridge reached — every hint except `bool` reaches the backend's
matching method, but the `bool` hint reaches `deserialize_any`
(src/de.rs:1342-1349 calls `self.dyn_deserialize_any`), not
`deserialize_bool` as the claim states. -/
theorem c2_hint_forwarding_evaluation :
    (∀ h : DeHint, h ≠ .bool →
      (bridge_deserialize probeBackend h (.deserializer ()) ()).1
        = .error h.methodName)
    ∧ (bridge_deserialize probeBackend .bool (.deserializer ()) ()).1
        = .error "deserialize_any"
    ∧ DeHint.methodName .bool ≠ "deserialize_any" := by
  refine ⟨?_, rfl, by decide⟩
  intro h hne
  cases h <;> first | rfl | exact absurd rfl hne

/-- C2 witness: the forwarding conclusion applied at the `i8` hint. -/
theorem c2_hint_forwarding_evaluation_witness :
    (bridge_deserialize probeBackend .i8 (.deserializer ()) ()).1
      = .error "deserialize_i8" :=
  c2_hint_forwarding_evaluation.1 .i8 (by decide)

/-- C3 (code bug evaluation): constructing an invalid-value error through
the erased path's `serde::de::Error` constructor (`Error::invalid_value`,
src/error.rs:109-115, whose body calls `Repr::invalid_type`) renders as an
invalid-type message, differing from the invalid-value rendering that the
crate's own `Repr::invalid_value` classification produces (and that a
backend constructing the same error directly would show); the other six
classified kinds render identically to their matching classification. -/
theorem c3_error_display_fidelity_evaluation :
    (ErrorCarrier.invalid_value (.bool true) "a boolean").display
      = "invalid type: boolean `true`, expected a boolean"
    ∧ (ErrRepr.invalid_value (.bool true) "a boolean").display
      = "invalid value: boolean `true`, expected a boolean"
    ∧ (ErrorCarrier.invalid_value (.bool true) "a boolean").display
      ≠ (ErrRepr.invalid_value (.bool true) "a boolean").display
    ∧ (∀ u e, (ErrorCarrier.invalid_type u e).display = (ErrRepr.invalid_type u e).display)
    ∧ (∀ l e, (ErrorCarrier.invalid_length l e).display = (ErrRepr.invalid_length l e).display)
    ∧ (∀ v ex, (ErrorCarrier.unknown_variant v ex).display
        = (ErrRepr.unknown_variant v ex).display)
    ∧ (∀ f ex, (ErrorCarrier.unknown_field f ex).display
        = (ErrRepr.unknown_field f ex).display)
    ∧ (∀ f, (ErrorCarrier.missing_field f).display = (ErrRepr.missing_field f).display)
    ∧ (∀ f, (ErrorCarrier.duplicate_field f).display = (ErrRepr.duplicate_field f).display) := by
  exact ⟨by decide, by decide, by decide,
    fun u e => rfl, fun l e => rfl, fun v ex => rfl,
    fun f ex => rfl, fun f => rfl, fun f => rfl⟩

/-- C4 counterexample: the claim says a Holding slot moves only to a
Produced, Failed, or next-continuation state, but a successful
`deserialize_with` on a Holding `InplaceDeserializer` leaves the slot in
`None` — the Empty state (`mem::take`'s default is never overwritten on
the success path, src/de.rs:536-543); the `InplaceDeserializer` sum type
has no Produced or continuation state at all, and here the slot is not
`Failed` either. -/
theorem c4_success_leaves_empty_counterexample :
    (InplaceDeserializer.deserialize_with
        (InplaceDeserializer.deserializer () : InplaceDeserializer Unit Unit) ()
        (fun (_ : Unit) (_ : Unit) => ((), Except.ok ()))).1
      = InplaceDeserializer.none
    ∧ (InplaceDeserializer.deserialize_with
        (InplaceDeserializer.deserializer () : InplaceDeserializer Unit Unit) ()
        (fun (_ : Unit) (_ : Unit) => ((), Except.ok ()))).2.2 = .ok ()
    ∧ (InplaceDeserializer.none : InplaceDeserializer Unit Unit)
        ≠ InplaceDeserializer.error () :=
  ⟨rfl, rfl, fun h => nomatch h⟩

/-- C4 amended: for every adapter slot (`InplaceSerializer`,
`InplaceDeserializer`, `InplaceVisitor`, `InplaceDeserializeSeed`,
`InplaceEnumAccess`), a Holding state moves only to a Produced, Failed,
Empty, or next-continuation state (Empty when the outcome travels through
the return channel or the visitor: deserializer and enum-variant slots on
success, visitor and seed slots on failure; builder element operations
keep the serializer slot in the same builder continuation state); every
operation invoked while the slot is Empty, Produced, or Failed returns a
`Not*` protocol-violation error without mutating the slot (the embedding
is total, so no panic exists); and invoking a terminal mirror method twice
yields a protocol violation the second time, never a stale result. -/
theorem c4_slot_protocol_amended (D E σ V Val T A Var U : Type) (S : SerTypes) :
    (∀ (vis : σ) (f : D → σ → σ × Except E Unit),
      InplaceDeserializer.deserialize_with .none vis f
        = (.none, vis, .error .notDeserializer))
    ∧ (∀ (e : E) (vis : σ) (f : D → σ → σ × Except E Unit),
      InplaceDeserializer.deserialize_with (.error e) vis f
        = (.error e, vis, .error .notDeserializer))
    ∧ (∀ (d : D) (vis : σ) (f : D → σ → σ × Except E Unit),
      ((InplaceDeserializer.deserialize_with (.deserializer d) vis f).1 = .none
        ∧ (InplaceDeserializer.deserialize_with (.deserializer d) vis f).2.2 = .ok ())
      ∨ (∃ e, (InplaceDeserializer.deserialize_with (.deserializer d) vis f).1 = .error e
        ∧ (InplaceDeserializer.deserialize_with (.deserializer d) vis f).2.2
            = .error .error))
    ∧ (∀ (d : D) (vis vis' : σ) (f g : D → σ → σ × Except E Unit),
      (InplaceDeserializer.deserialize_with
        (InplaceDeserializer.deserialize_with (.deserializer d) vis f).1 vis' g).2.2
        = .error .notDeserializer)
    ∧ (∀ (st : σ) (f : V → σ → σ × Except DeserializeError Val),
      InplaceVisitor.visit_with .none st f
        = (.none, st, .error (DeserializeError.fromInplace .notVisitor)))
    ∧ (∀ (x : Val) (st : σ) (f : V → σ → σ × Except DeserializeError Val),
      InplaceVisitor.visit_with (.value x) st f
        = (.value x, st, .error (DeserializeError.fromInplace .notVisitor)))
    ∧ (∀ (v : V) (st : σ) (f : V → σ → σ × Except DeserializeError Val),
      (∃ x, (InplaceVisitor.visit_with (.visitor v) st f).1 = .value x
        ∧ (InplaceVisitor.visit_with (.visitor v) st f).2.2 = .ok ())
      ∨ ((InplaceVisitor.visit_with (.visitor v) st f).1 = .none
        ∧ ∃ e, (InplaceVisitor.visit_with (.visitor v) st f).2.2 = .error e))
    ∧ (∀ (v : V) (st st' : σ) (f g : V → σ → σ × Except DeserializeError Val),
      (InplaceVisitor.visit_with
        (InplaceVisitor.visit_with (.visitor v) st f).1 st' g).2.2
        = .error (DeserializeError.fromInplace .notVisitor))
    ∧ (∀ (st : σ) (f : T → σ → σ × Except DeserializeError Val),
      InplaceDeserializeSeed.dyn_deserialize .none st f
        = (.none, st, .error (DeserializeError.fromInplace .notDeserializeSeed)))
    ∧ (∀ (x : Val) (st : σ) (f : T → σ → σ × Except DeserializeError Val),
      InplaceDeserializeSeed.dyn_deserialize (.value x) st f
        = (.value x, st, .error (DeserializeError.fromInplace .notDeserializeSeed)))
    ∧ (∀ (t : T) (st : σ) (f : T → σ → σ × Except DeserializeError Val),
      (∃ x, (InplaceDeserializeSeed.dyn_deserialize (.deserializeSeed t) st f).1
          = .value x)
      ∨ ((InplaceDeserializeSeed.dyn_deserialize (.deserializeSeed t) st f).1 = .none
        ∧ ∃ e, (InplaceDeserializeSeed.dyn_deserialize (.deserializeSeed t) st f).2.2
            = .error e))
    ∧ (∀ (t : T) (st st' : σ) (f g : T → σ → σ × Except DeserializeError Val),
      (InplaceDeserializeSeed.dyn_deserialize
        (InplaceDeserializeSeed.dyn_deserialize (.deserializeSeed t) st f).1 st' g).2.2
        = .error (DeserializeError.fromInplace .notDeserializeSeed))
    ∧ (∀ (st : σ) (f : A → σ → σ × Except E Var),
      InplaceEnumAccess.dyn_variant .none st f = (.none, st, .error .notEnumAccess))
    ∧ (∀ (e : E) (st : σ) (f : A → σ → σ × Except E Var),
      InplaceEnumAccess.dyn_variant (.error e) st f
        = (.error e, st, .error .notEnumAccess))
    ∧ (∀ (a : A) (st : σ) (f : A → σ → σ × Except E Var),
      (∃ var, (InplaceEnumAccess.dyn_variant (.enumAccess a) st f).1
          = .variantAccess var)
      ∨ (∃ e, (InplaceEnumAccess.dyn_variant (.enumAccess a) st f).1 = .error e))
    ∧ (∀ (st : σ) (f : Var → σ → σ × Except E Unit),
      InplaceEnumAccess.next_variant_with (A := A) .none st f
        = (.none, st, .error .notVariantAccess))
    ∧ (∀ (v : Var) (st : σ) (f : Var → σ → σ × Except E Unit),
      ((InplaceEnumAccess.next_variant_with (A := A) (.variantAccess v) st f).1 = .none
        ∧ (InplaceEnumAccess.next_variant_with (A := A) (.variantAccess v) st f).2.2
            = .ok ())
      ∨ (∃ e, (InplaceEnumAccess.next_variant_with (A := A) (.variantAccess v) st f).1
          = .error e))
    ∧ (∀ (f : S.Srl → Except S.Err U) (then' : U → InplaceSerializer S),
      InplaceSerializer.serialize_with .none InplaceSerializer.take then' f
        = (.none, .error .notSerializer))
    ∧ (∀ (v : S.Ok) (f : S.Srl → Except S.Err U) (then' : U → InplaceSerializer S),
      InplaceSerializer.serialize_with (.ok v) InplaceSerializer.take then' f
        = (.ok v, .error .notSerializer))
    ∧ (∀ (e : S.Err) (f : S.Srl → Except S.Err U) (then' : U → InplaceSerializer S),
      InplaceSerializer.serialize_with (.error e) InplaceSerializer.take then' f
        = (.error e, .error .notSerializer))
    ∧ (∀ (b : S.Seq) (f : S.Srl → Except S.Err U) (then' : U → InplaceSerializer S),
      InplaceSerializer.serialize_with (.serializeSeq b) InplaceSerializer.take then' f
        = (.serializeSeq b, .error .notSerializer))
    ∧ (∀ (s : S.Srl) (f : S.Srl → Except S.Err U) (then' : U → InplaceSerializer S),
      (∃ u, InplaceSerializer.serialize_with (.serializer s) InplaceSerializer.take then' f
          = (then' u, .ok ()))
      ∨ (∃ e, InplaceSerializer.serialize_with (.serializer s) InplaceSerializer.take then' f
          = (.error e, .error .error)))
    ∧ (∀ (s : S.Srl) (f g : S.Srl → Except S.Err S.Ok),
      (InplaceSerializer.serialize_with
        (InplaceSerializer.serialize_with (.serializer s) InplaceSerializer.take .ok f).1
        InplaceSerializer.take .ok g).2 = .error .notSerializer)
    ∧ (∀ (v : S.Ok) (f : S.Seq → S.Seq × Except S.Err Unit),
      InplaceSerializer.dyn_serialize_element_seq (.ok v) f
        = (.ok v, .error .notSerializeSeq))
    ∧ (∀ (e : S.Err) (f : S.Seq → S.Seq × Except S.Err Unit),
      InplaceSerializer.dyn_serialize_element_seq (.error e) f
        = (.error e, .error .notSerializeSeq))
    ∧ (∀ (b : S.Seq) (f : S.Seq → S.Seq × Except S.Err Unit),
      (∃ b', InplaceSerializer.dyn_serialize_element_seq (.serializeSeq b) f
          = (.serializeSeq b', .ok ()))
      ∨ (∃ e, InplaceSerializer.dyn_serialize_element_seq (.serializeSeq b) f
          = (.error e, .error .error)))
    ∧ (∀ (b : S.Seq) (f g : S.Seq → Except S.Err S.Ok),
      (InplaceSerializer.dyn_end_seq
        (InplaceSerializer.dyn_end_seq (.serializeSeq b) f).1 g).2
        = .error .notSerializeSeq) := by
  refine ⟨fun vis f => rfl, fun e vis f => rfl, ?_, ?_,
    fun st f => rfl, fun x st f => rfl, ?_, ?_,
    fun st f => rfl, fun x st f => rfl, ?_, ?_,
    fun st f => rfl, fun e st f => rfl, ?_,
    fun st f => rfl, ?_,
    fun f then' => rfl, fun v f then' => rfl, fun e f then' => rfl, fun b f then' => rfl,
    ?_, ?_,
    fun v f => rfl, fun e f => rfl, ?_, ?_⟩
  · intro d vis f
    rcases h : f d vis with ⟨vis', r⟩
    cases r with
    | ok u => exact Or.inl (by simp [InplaceDeserializer.deserialize_with, h])
    | error e => exact Or.inr ⟨e, by simp [InplaceDeserializer.deserialize_with, h]⟩
  · intro d vis vis' f g
    rcases h : f d vis with ⟨vis₂, r⟩
    cases r <;> simp [InplaceDeserializer.deserialize_with, h]
  · intro v st f
    rcases h : f v st with ⟨st₂, r⟩
    cases r with
    | ok x => exact Or.inl ⟨x, by simp [InplaceVisitor.visit_with, h]⟩
    | error e => exact Or.inr ⟨by simp [InplaceVisitor.visit_with, h],
        e, by simp [InplaceVisitor.visit_with, h]⟩
  · intro v st st' f g
    rcases h : f v st with ⟨st₂, r⟩
    cases r <;> simp [InplaceVisitor.visit_with, h]
  · intro t st f
    rcases h : f t st with ⟨st₂, r⟩
    cases r with
    | ok x => exact Or.inl ⟨x, by simp [InplaceDeserializeSeed.dyn_deserialize, h]⟩
    | error e => exact Or.inr ⟨by simp [InplaceDeserializeSeed.dyn_deserialize, h],
        e, by simp [InplaceDeserializeSeed.dyn_deserialize, h]⟩
  · intro t st st' f g
    rcases h : f t st with ⟨st₂, r⟩
    cases r <;> simp [InplaceDeserializeSeed.dyn_deserialize, h]
  · intro a st f
    rcases h : f a st with ⟨st₂, r⟩
    cases r with
    | ok var => exact Or.inl ⟨var, by simp [InplaceEnumAccess.dyn_variant, h]⟩
    | error e => exact Or.inr ⟨e, by simp [InplaceEnumAccess.dyn_variant, h]⟩
  · intro v st f
    rcases h : f v st with ⟨st₂, r⟩
    cases r with
    | ok u => exact Or.inl (by simp [InplaceEnumAccess.next_variant_with, h])
    | error e => exact Or.inr ⟨e, by simp [InplaceEnumAccess.next_variant_with, h]⟩
  · intro s f then'
    cases h : f s with
    | error e =>
      exact Or.inr ⟨e, by simp [InplaceSerializer.serialize_with, InplaceSerializer.take, h]⟩
    | ok u =>
      exact Or.inl ⟨u, by simp [InplaceSerializer.serialize_with, InplaceSerializer.take, h]⟩
  · intro s f g
    cases h : f s with
    | error e => simp [InplaceSerializer.serialize_with, InplaceSerializer.take, h]
    | ok u => simp [InplaceSerializer.serialize_with, InplaceSerializer.take, h]
  · intro b f
    rcases h : f b with ⟨b', r⟩
    cases r with
    | ok u => exact Or.inl ⟨b', by simp [InplaceSerializer.dyn_serialize_element_seq, h]⟩
    | error e => exact Or.inr ⟨e, by simp [InplaceSerializer.dyn_serialize_element_seq, h]⟩
  · intro b f g
    rcases h : f b with _ | _ <;>
      simp [InplaceSerializer.dyn_end_seq, InplaceSerializer.serialize_with,
        InplaceSerializer.take_seq, InplaceSerializer.take, h]

/-- C5: enum two-phase ordering on `InplaceEnumAccess`.  Payload
consumption (`next_variant_with`, the shared body of `dyn_unit_variant`,
`dyn_newtype_variant`, `dyn_tuple_variant`, `dyn_struct_variant`) before
`dyn_variant` has resolved the variant fails with `NotVariantAccess`
leaving the slot unchanged; `dyn_variant` a second time (slot already in
`VariantAccess`, or terminal) fails with `NotEnumAccess`; payload
consumption a second time (slot `None` after success or `Error` after
failure) fails with `NotVariantAccess`; `dyn_variant` succeeds only from
the `EnumAccess` state and moves the slot to `VariantAccess`; payload
consumption succeeds only from `VariantAccess` and is terminal (slot
`None` on success, `Error` on failure). -/
theorem c5_enum_two_phase_ordering (A Var E σ : Type) :
    (∀ (a : A) (st : σ) (f : Var → σ → σ × Except E Unit),
      InplaceEnumAccess.next_variant_with (.enumAccess a) st f
        = (.enumAccess a, st, .error .notVariantAccess))
    ∧ (∀ (v : Var) (st : σ) (f : A → σ → σ × Except E Var),
      InplaceEnumAccess.dyn_variant (.variantAccess v) st f
        = (.variantAccess v, st, .error .notEnumAccess))
    ∧ (∀ (st : σ) (f : A → σ → σ × Except E Var),
      InplaceEnumAccess.dyn_variant .none st f = (.none, st, .error .notEnumAccess))
    ∧ (∀ (e : E) (st : σ) (f : A → σ → σ × Except E Var),
      InplaceEnumAccess.dyn_variant (.error e) st f
        = (.error e, st, .error .notEnumAccess))
    ∧ (∀ (st : σ) (f : Var → σ → σ × Except E Unit),
      InplaceEnumAccess.next_variant_with (A := A) .none st f
        = (.none, st, .error .notVariantAccess))
    ∧ (∀ (e : E) (st : σ) (f : Var → σ → σ × Except E Unit),
      InplaceEnumAccess.next_variant_with (A := A) (.error e) st f
        = (.error e, st, .error .notVariantAccess))
    ∧ (∀ (a : A) (st st' : σ) (f : A → σ → σ × Except E Var)
        (g : A → σ → σ × Except E Var),
      (InplaceEnumAccess.dyn_variant
        (InplaceEnumAccess.dyn_variant (.enumAccess a) st f).1 st' g).2.2
        = .error .notEnumAccess)
    ∧ (∀ (a : A) (st st' : σ) (f : A → σ → σ × Except E Var) (st'' : σ) (var : Var),
      f a st = (st', Except.ok var) →
        InplaceEnumAccess.dyn_variant (.enumAccess a) st f
          = (.variantAccess var, st', .ok ()))
    ∧ (∀ (v : Var) (st st' : σ) (f : Var → σ → σ × Except E Unit),
      f v st = (st', Except.ok ()) →
        InplaceEnumAccess.next_variant_with (A := A) (.variantAccess v) st f
          = (.none, st', .ok ()))
    ∧ (∀ (v : Var) (st st' : σ) (f : Var → σ → σ × Except E Unit) (e : E),
      f v st = (st', Except.error e) →
        InplaceEnumAccess.next_variant_with (A := A) (.variantAccess v) st f
          = (.error e, st', .error .error))
    ∧ (∀ (v : Var) (st st' : σ) (f g : Var → σ → σ × Except E Unit),
      (InplaceEnumAccess.next_variant_with
        (InplaceEnumAccess.next_variant_with (A := A) (.variantAccess v) st f).1
        st' g).2.2 = .error .notVariantAccess) := by
  refine ⟨fun a st f => rfl, fun v st f => rfl, fun st f => rfl, fun e st f => rfl,
    fun st f => rfl, fun e st f => rfl, ?_, ?_, ?_, ?_, ?_⟩
  · intro a st st' f g
    rcases h : f a st with ⟨st₂, r⟩
    cases r <;> simp [InplaceEnumAccess.dyn_variant, h]
  · intro a st st' f st'' var h
    simp [InplaceEnumAccess.dyn_variant, h]
  · intro v st st' f h
    simp [InplaceEnumAccess.next_variant_with, h]
  · intro v st st' f e h
    simp [InplaceEnumAccess.next_variant_with, h]
  · intro v st st' f g
    rcases h : f v st with ⟨st₂, r⟩
    cases r <;> simp [InplaceEnumAccess.next_variant_with, h]

/-- C5 witness: the two-phase conclusions applied at concrete inputs (all
component types `Unit`): payload-before-resolve fails, resolve succeeds
from `EnumAccess` moving to `VariantAccess`, payload succeeds from
`VariantAccess` moving to `None`. -/
theorem c5_enum_two_phase_ordering_witness :
    InplaceEnumAccess.next_variant_with
        (.enumAccess () : InplaceEnumAccess Unit Unit Unit) ()
        (fun _ s => (s, Except.ok ()))
      = (.enumAccess (), (), .error .notVariantAccess)
    ∧ InplaceEnumAccess.dyn_variant
        (.enumAccess () : InplaceEnumAccess Unit Unit Unit) ()
        (fun _ s => (s, Except.ok ()))
      = (.variantAccess (), (), .ok ())
    ∧ InplaceEnumAccess.next_variant_with
        (.variantAccess () : InplaceEnumAccess Unit Unit Unit) ()
        (fun _ s => (s, Except.ok ()))
      = (.none, (), .ok ()) :=
  ⟨(c5_enum_two_phase_ordering Unit Unit Unit Unit).1 () () _,
    (c5_enum_two_phase_ordering Unit Unit Unit Unit).2.2.2.2.2.2.2.1
      () () () _ () () rfl,
    (c5_enum_two_phase_ordering Unit Unit Unit Unit).2.2.2.2.2.2.2.2.1
      () () () _ rfl⟩

-- List-backed cursors for the sequence/map exhaustion claim
-- ---------------------------------------------------------------------------

/-- A canonical well-behaved backend sequence cursor over a list,
embedding a concrete backend's `next_element_seed`: one element-present
signal per remaining element, then the exhaustion signal (`Ok(None)`)
forever; it never fails.  The threaded seed state is untracked (`Unit`). -/
def listNextElement (E : Type) : List α → Unit → List α × Unit × Except E (Option Unit)
  | [], _ => ([], (), Except.ok Option.none)
  | _ :: t, _ => (t, (), Except.ok (some ()))

/-- Mirrors `SeqAccess::dyn_next_element` for `InplaceSeqAccess`
(src/de.rs:1048-1053): `self.next_with(|access| access.next_element_seed(seed))`,
instantiated at the list cursor. -/
def dyn_next_element_list (s : InplaceSeqAccess (List α) E) :
    InplaceSeqAccess (List α) E × InplaceDeserializeResult (Option Unit) :=
  match InplaceSeqAccess.next_with s () (listNextElement E) with
  | (s', _, r) => (s', r)

/-- State of the sequence adapter after `n` repeated `dyn_next_element`
calls on the same instance. -/
def iterNextElement (n : Nat) (s : InplaceSeqAccess (List α) E) :
    InplaceSeqAccess (List α) E :=
  match n with
  | 0 => s
  | n + 1 => iterNextElement n (dyn_next_element_list s).1

/-- The list-backed map cursor, embedding a concrete backend's
`next_entry_seed` over the remaining entries. -/
def listNextEntry (E : Type) :
    List (K × W) → Unit → List (K × W) × Unit × Except E (Option (Unit × Unit))
  | [], _ => ([], (), Except.ok Option.none)
  | _ :: t, _ => (t, (), Except.ok (some ((), ())))

/-- Mirrors `MapAccess::dyn_next_entry` for `InplaceMapAccess`
(src/de.rs:1114-1120), instantiated at the list cursor. -/
def dyn_next_entry_list (s : InplaceMapAccess (List (K × W)) E) :
    InplaceMapAccess (List (K × W)) E × InplaceDeserializeResult (Option (Unit × Unit)) :=
  match InplaceMapAccess.next_with s () (listNextEntry E) with
  | (s', _, r) => (s', r)

/-- C6: sequence/map exhaustion.  On the list-backed cursor, each `next`
call returns a present signal while elements remain and re-stores the
cursor as Holding (`SeqAccess`/`MapAccess`); after `n` calls the adapter
holds exactly the list with `n` elements dropped, so the backend reports
exhaustion exactly once — at the first call past the end — and every
subsequent call returns the same `Ok(None)` exhaustion signal, not an
error, the slot never leaving the Holding state.  Only an error makes the
adapter terminal: a failing cursor call moves the slot to `Error`, after
which `next` fails with `NotSeqAccess`/`NotMapAccess`. -/
theorem c6_seq_map_exhaustion (α K W E : Type) :
    (∀ (x : α) (t : List α),
      dyn_next_element_list (E := E) (.seqAccess (x :: t))
        = (.seqAccess t, .ok (some ())))
    ∧ (dyn_next_element_list (E := E) (.seqAccess ([] : List α))
        = (.seqAccess [], .ok Option.none))
    ∧ (∀ (l : List α) (n : Nat),
      iterNextElement (E := E) n (.seqAccess l) = .seqAccess (l.drop n))
    ∧ (∀ (l : List α) (n : Nat),
      (dyn_next_element_list (E := E) (iterNextElement n (.seqAccess l))).2
        = if n < l.length then .ok (some ()) else .ok Option.none)
    ∧ (∀ (l : List α) (st : Unit) (e : E),
      InplaceSeqAccess.next_with (.seqAccess l) st
          (fun (a : List α) (s : Unit) => (a, s, (Except.error e : Except E Unit)))
        = (.error e, st, .error .error))
    ∧ (∀ (e : E) (st : Unit) (f : List α → Unit → List α × Unit × Except E (Option Unit)),
      InplaceSeqAccess.next_with (.error e) st f = (.error e, st, .error .notSeqAccess))
    ∧ (∀ (x : K × W) (t : List (K × W)),
      dyn_next_entry_list (E := E) (.mapAccess (x :: t))
        = (.mapAccess t, .ok (some ((), ()))))
    ∧ (dyn_next_entry_list (E := E) (.mapAccess ([] : List (K × W)))
        = (.mapAccess [], .ok Option.none))
    ∧ (dyn_next_entry_list (E := E)
        (dyn_next_entry_list (E := E) (.mapAccess ([] : List (K × W)))).1
        = (.mapAccess [], .ok Option.none))
    ∧ (∀ (e : E) (st : Unit)
        (f : List (K × W) → Unit → List (K × W) × Unit × Except E (Option (Unit × Unit))),
      InplaceMapAccess.next_with (.error e) st f
        = (.error e, st, .error .notMapAccess)) := by
  have hiter : ∀ (l : List α) (n : Nat),
      iterNextElement (E := E) n (.seqAccess l) = .seqAccess (l.drop n) := by
    intro l n
    induction n generalizing l with
    | zero => simp [iterNextElement]
    | succ n ih =>
      cases l with
      | nil =>
        simp [iterNextElement, dyn_next_element_list, InplaceSeqAccess.next_with,
          listNextElement, ih]
      | cons x t =>
        simp [iterNextElement, dyn_next_element_list, InplaceSeqAccess.next_with,
          listNextElement, ih]
  refine ⟨fun x t => rfl, rfl, hiter, ?_, fun l st e => rfl, fun e st f => rfl,
    fun x t => rfl, rfl, rfl, fun e st f => rfl⟩
  intro l n
  rw [hiter]
  rcases hd : l.drop n with _ | ⟨x, t⟩
  · rw [if_neg (Nat.not_lt.mpr (List.drop_eq_nil_iff.mp hd))]
    simp [dyn_next_element_list, InplaceSeqAccess.next_with, listNextElement]
  · have hlt : n < l.length := by
      by_contra hle
      rw [List.drop_eq_nil_iff.mpr (Nat.not_lt.mp hle)] at hd
      exact List.noConfusion hd
    rw [if_pos hlt]
    simp [dyn_next_element_list, InplaceSeqAccess.next_with, listNextElement]

/-- A non-human-readable backend whose `serialize_seq` succeeds, used to
reach a builder continuation state. -/
def hrProbeBackend : SerBackend miniSerTypes where
  serialize_bool := fun _ _ => .error "unsupported"
  serialize_i64 := fun _ _ => .error "unsupported"
  serialize_i128 := fun _ _ => .error "unsupported"
  serialize_u128 := fun _ _ => .error "unsupported"
  serialize_seq := fun _ _ => .ok ()
  is_human_readable := fun _ => false

/-- C7 counterexample: the claim says the human-readable query equals the
wrapped backend's answer at every point before the slot becomes terminal;
but after `dyn_serialize_seq` the slot is in the (non-terminal)
`SerializeSeq` builder continuation state, where
`dyn_is_human_readable` (src/ser.rs:933-939) answers the neutral `true`
although the wrapped backend answers `false`. -/
theorem c7_builder_state_counterexample :
    (InplaceSerializer.dyn_serialize_seq hrProbeBackend
        (.serializer ()) Option.none).1
      = (.serializeSeq () : InplaceSerializer miniSerTypes)
    ∧ InplaceSerializer.dyn_is_human_readable hrProbeBackend.is_human_readable
        (.serializeSeq () : InplaceSerializer miniSerTypes) = true
    ∧ hrProbeBackend.is_human_readable () = false
    ∧ InplaceSerializer.dyn_is_human_readable hrProbeBackend.is_human_readable
        (.serializeSeq () : InplaceSerializer miniSerTypes)
      ≠ hrProbeBackend.is_human_readable () :=
  ⟨rfl, rfl, rfl, by decide⟩

/-- C7 amended: the human-readable query returns exactly the wrapped
backend's `is_human_readable` answer while the slot is in the
Holding-serializer (resp. Holding-deserializer) state, and the neutral
default `true` in every other state — including the builder continuation
states, which are not terminal; the size-hint query on a sequence or map
access adapter returns exactly the wrapped cursor's `size_hint` while the
cursor is held, and `None` in the terminal `Error` state. -/
theorem c7_passthrough_amended (D E A : Type) (S : SerTypes) :
    (∀ (hr : S.Srl → Bool) (s : S.Srl),
      InplaceSerializer.dyn_is_human_readable hr (.serializer s) = hr s)
    ∧ (∀ (hr : S.Srl → Bool),
      InplaceSerializer.dyn_is_human_readable hr (.none : InplaceSerializer S) = true)
    ∧ (∀ (hr : S.Srl → Bool) (v : S.Ok),
      InplaceSerializer.dyn_is_human_readable hr (.ok v) = true)
    ∧ (∀ (hr : S.Srl → Bool) (e : S.Err),
      InplaceSerializer.dyn_is_human_readable hr (.error e) = true)
    ∧ (∀ (hr : S.Srl → Bool) (b : S.Seq),
      InplaceSerializer.dyn_is_human_readable hr (.serializeSeq b) = true)
    ∧ (∀ (hr : S.Srl → Bool) (b : S.Tup),
      InplaceSerializer.dyn_is_human_readable hr (.serializeTuple b) = true)
    ∧ (∀ (hr : S.Srl → Bool) (b : S.TupStruct),
      InplaceSerializer.dyn_is_human_readable hr (.serializeTupleStruct b) = true)
    ∧ (∀ (hr : S.Srl → Bool) (b : S.TupVariant),
      InplaceSerializer.dyn_is_human_readable hr (.serializeTupleVariant b) = true)
    ∧ (∀ (hr : S.Srl → Bool) (b : S.Map),
      InplaceSerializer.dyn_is_human_readable hr (.serializeMap b) = true)
    ∧ (∀ (hr : S.Srl → Bool) (b : S.Struct),
      InplaceSerializer.dyn_is_human_readable hr (.serializeStruct b) = true)
    ∧ (∀ (hr : S.Srl → Bool) (b : S.StructVariant),
      InplaceSerializer.dyn_is_human_readable hr (.serializeStructVariant b) = true)
    ∧ (∀ (hr : D → Bool) (d : D),
      InplaceDeserializer.dyn_is_human_readable (E := E) hr (.deserializer d) = hr d)
    ∧ (∀ (hr : D → Bool),
      InplaceDeserializer.dyn_is_human_readable hr
        (.none : InplaceDeserializer D E) = true)
    ∧ (∀ (hr : D → Bool) (e : E),
      InplaceDeserializer.dyn_is_human_readable hr
        (.error e : InplaceDeserializer D E) = true)
    ∧ (∀ (sh : A → Option Nat) (a : A),
      InplaceSeqAccess.dyn_size_hint (E := E) sh (.seqAccess a) = sh a)
    ∧ (∀ (sh : A → Option Nat) (e : E),
      InplaceSeqAccess.dyn_size_hint sh
        (.error e : InplaceSeqAccess A E) = Option.none)
    ∧ (∀ (sh : A → Option Nat) (a : A),
      InplaceMapAccess.dyn_size_hint (E := E) sh (.mapAccess a) = sh a)
    ∧ (∀ (sh : A → Option Nat) (e : E),
      InplaceMapAccess.dyn_size_hint sh
        (.error e : InplaceMapAccess A E) = Option.none) :=
  ⟨fun hr s => rfl, fun hr => rfl, fun hr v => rfl, fun hr e => rfl,
    fun hr b => rfl, fun hr b => rfl, fun hr b => rfl, fun hr b => rfl,
    fun hr b => rfl, fun hr b => rfl, fun hr b => rfl,
    fun hr d => rfl, fun hr => rfl, fun hr e => rfl,
    fun sh a => rfl, fun sh e => rfl, fun sh a => rfl, fun sh e => rfl⟩

/-- Mirrors `next_entry_seed` of `impl serde::de::MapAccess for &mut dyn
MapAccess` (src/de.rs:1876-1898): build two fresh seed slots, run
`dyn_next_entry` (take–call–restore against the wrapped cursor with the
seed pair as the threaded state; `B` embeds the backend's
`next_entry_seed`), read the value seed through `into_result_option`, and
take the key from the key seed slot — the `unreachable!()` arm (and the
panic inside `into_result_option`) is embedded as `Option.none`. -/
def serde_next_entry_seed (acc : InplaceMapAccess A E) (k : K) (v : V)
    (B : A → InplaceDeserializeSeed K KV × InplaceDeserializeSeed V VV →
      A × (InplaceDeserializeSeed K KV × InplaceDeserializeSeed V VV)
        × Except E (Option (Unit × Unit))) :
    InplaceMapAccess A E × Option (Except DeserializeError (Option (KV × VV))) :=
  match InplaceMapAccess.next_with acc (.deserializeSeed k, .deserializeSeed v) B with
  | (acc', (kseed, vseed), result) =>
    (acc',
      match vseed.into_result_option result with
      | Option.none => Option.none
      | some (.error e) => some (.error e)
      | some (.ok Option.none) => some (.ok Option.none)
      | some (.ok (some vv)) =>
        match kseed with
        | .value kk => some (.ok (some (kk, vv)))
        | _ => Option.none)

/-- Mirrors `variant_seed` of `impl serde::de::EnumAccess for &mut dyn
EnumAccess` (src/de.rs:1905-1923): build a fresh seed slot, run
`dyn_variant` (with `B` embedding the backend's `variant_seed`), then
match the pair (seed slot, result): `(Value, Ok)` yields the value (and
`self` as the variant handle), `(_, Err)` yields the error, and the
`(_, Ok)` `unreachable!()` arm is embedded as `Option.none`. -/
def serde_variant_seed (acc : InplaceEnumAccess A Var E) (sd : T)
    (B : A → InplaceDeserializeSeed T Val →
      InplaceDeserializeSeed T Val × Except E Var) :
    InplaceEnumAccess A Var E × Option (Except DeserializeError Val) :=
  match InplaceEnumAccess.dyn_variant acc (.deserializeSeed sd) B with
  | (acc', seed', result) =>
    (acc',
      match seed', result with
      | .value x, .ok _ => some (.ok x)
      | _, .error e => some (.error (DeserializeError.fromInplace e))
      | _, .ok _ => Option.none)

/-- C8: backend-failure capture and recovery.  When a wrapped backend call
made through take–call–restore fails with error `e`: the adapter stores
`e` in the slot as the `Failed` state, the immediate caller receives only
the content-free `Error` signal (the nullary constructor of
`InplaceDeserializeError` / `InplaceSerializeError`), and the adapter's
creator, reading the slot afterwards (`into_result`, or the terminal match
in `impl serde::Serialize for dyn Serialize`), recovers exactly `e` — the
backend's own error value, not a resynthesized one. -/
theorem c8_failure_capture_and_recovery (D E σ A Var : Type) (S : SerTypes) :
    (∀ (d : D) (vis vis' : σ) (f : D → σ → σ × Except E Unit) (e : E),
      f d vis = (vis', Except.error e) →
        InplaceDeserializer.deserialize_with (.deserializer d) vis f
          = (.error e, vis', .error .error))
    ∧ (∀ (custom : String → E) (e : E) (r : DeserializeError),
      InplaceDeserializer.into_result (D := D) custom (.error e) (.error r) = .error e)
    ∧ (∀ (s : S.Srl) (f : S.Srl → Except S.Err S.Ok) (e : S.Err),
      f s = .error e →
        InplaceSerializer.serialize_with (.serializer s) InplaceSerializer.take .ok f
          = (.error e, .error .error))
    ∧ (∀ (custom : String → S.Err)
        (run : InplaceSerializer S → InplaceSerializer S × Except SerializeError Unit)
        (ser : S.Srl) (e : S.Err) (r : Except SerializeError Unit),
      run (.serializer ser) = (.error e, r) →
        serde_serialize_dyn custom run ser = some (.error e))
    ∧ (∀ (a : A) (st st' : σ) (a' : A) (f : A → σ → A × σ × Except E Unit) (e : E),
      f a st = (a', st', Except.error e) →
        InplaceSeqAccess.next_with (.seqAccess a) st f = (.error e, st', .error .error))
    ∧ (∀ (custom : String → E) (e : E) (r : DeserializeError),
      InplaceSeqAccess.into_result (A := A) custom (.error e) (.error r) = .error e)
    ∧ (∀ (a : A) (st st' : σ) (f : A → σ → σ × Except E Var) (e : E),
      f a st = (st', Except.error e) →
        InplaceEnumAccess.dyn_variant (.enumAccess a) st f
          = (.error e, st', .error .error))
    ∧ (∀ (custom : String → E) (e : E) (r : DeserializeError),
      InplaceEnumAccess.into_result custom
        (.error e : InplaceEnumAccess A Var E) (.error r) = .error e) := by
  refine ⟨?_, fun custom e r => rfl, ?_, ?_, ?_, fun custom e r => rfl, ?_,
    fun custom e r => rfl⟩
  · intro d vis vis' f e h
    simp [InplaceDeserializer.deserialize_with, h]
  · intro s f e h
    simp [InplaceSerializer.serialize_with, InplaceSerializer.take, h]
  · intro custom run ser e r h
    simp [serde_serialize_dyn, h]
  · intro a st st' a' f e h
    simp [InplaceSeqAccess.next_with, h]
  · intro a st st' f e h
    simp [InplaceEnumAccess.dyn_variant, h]

/-- C8 witness: the capture and recovery conclusions applied at concrete
inputs (backend error `"boom"`, all state types `Unit`). -/
theorem c8_failure_capture_and_recovery_witness :
    InplaceDeserializer.deserialize_with
        (.deserializer () : InplaceDeserializer Unit String) ()
        (fun _ _ => ((), Except.error "boom"))
      = (.error "boom", (), .error .error)
    ∧ InplaceDeserializer.into_result (D := Unit) (fun s => s) (.error "boom")
        (.error (DeserializeError.custom "signal")) = .error "boom"
    ∧ InplaceSerializer.serialize_with
        (.serializer () : InplaceSerializer miniSerTypes) InplaceSerializer.take .ok
        (fun _ => Except.error "boom")
      = (.error "boom", .error .error) :=
  ⟨(c8_failure_capture_and_recovery Unit String Unit Unit Unit miniSerTypes).1
      () () () _ "boom" rfl,
    (c8_failure_capture_and_recovery Unit String Unit Unit Unit miniSerTypes).2.1
      (fun s => s) "boom" _,
    (c8_failure_capture_and_recovery Unit String Unit Unit Unit miniSerTypes).2.2.1
      () _ "boom" rfl⟩

/-- A probe serializer backend whose every method fails with its own name,
so evaluation observes which backend method a path reaches. -/
def probeSerBackend : SerBackend miniSerTypes where
  serialize_bool := fun _ _ => .error "serialize_bool"
  serialize_i64 := fun _ _ => .error "serialize_i64"
  serialize_i128 := fun _ _ => .error "serialize_i128"
  serialize_u128 := fun _ _ => .error "serialize_u128"
  serialize_seq := fun _ _ => .error "serialize_seq"
  is_human_readable := fun _ => true

/-- C9: the generic bridge impls do not override serde's defaulted 128-bit
methods.  Serializing an `i128`/`u128` through `&mut dyn Serializer`, or
hinting `i128`/`u128` through `&mut dyn Deserializer`, always errors with
serde's default message and leaves the slot untouched (in particular still
Holding: the backend is never invoked, otherwise take–call–restore would
have consumed or failed the slot), and the result is independent of the
wrapped backend; yet the mirror methods are fully implemented — invoked
directly, `dyn_serialize_i128` / `dyn_deserialize_i128` (and the `u128`
twins) reach exactly the backend's 128-bit method, as the probe backends
show. -/
theorem c9_128_bit_defaults :
    (∀ (S : SerTypes) (B B' : SerBackend S) (s : InplaceSerializer S) (v : Int),
      bridge_serialize_i128 B s v = bridge_serialize_i128 B' s v)
    ∧ (∀ (S : SerTypes) (B : SerBackend S) (s : InplaceSerializer S) (v : Int),
      bridge_serialize_i128 B s v
        = (s, .error (SerializeError.custom "i128 is not supported")))
    ∧ (∀ (S : SerTypes) (B : SerBackend S) (s : InplaceSerializer S) (v : Nat),
      bridge_serialize_u128 B s v
        = (s, .error (SerializeError.custom "u128 is not supported")))
    ∧ (bridge_serialize_i128 probeSerBackend (.serializer ()) 7).1 = .serializer ()
    ∧ (InplaceSerializer.dyn_serialize_i128 probeSerBackend (.serializer ()) 7).1
        = .error "serialize_i128"
    ∧ (InplaceSerializer.dyn_serialize_u128 probeSerBackend (.serializer ()) 7).1
        = .error "serialize_u128"
    ∧ (∀ (D E V Val : Type) (B B' : DeBackend D E (InplaceVisitor V Val))
        (s : InplaceDeserializer D E) (v : V),
      bridge_deserialize_i128 B s v = bridge_deserialize_i128 B' s v)
    ∧ (∀ (D E V Val : Type) (B : DeBackend D E (InplaceVisitor V Val))
        (s : InplaceDeserializer D E) (v : V),
      bridge_deserialize_i128 B s v
        = (s, some (.error (DeserializeError.custom "i128 is not supported"))))
    ∧ (∀ (D E V Val : Type) (B : DeBackend D E (InplaceVisitor V Val))
        (s : InplaceDeserializer D E) (v : V),
      bridge_deserialize_u128 B s v
        = (s, some (.error (DeserializeError.custom "u128 is not supported"))))
    ∧ (bridge_deserialize_i128 probeBackend (.deserializer ()) ()).1 = .deserializer ()
    ∧ (InplaceDeserializer.dyn_deserialize probeBackend .i128
        (.deserializer ()) (.visitor ())).1 = .error "deserialize_i128"
    ∧ (InplaceDeserializer.dyn_deserialize probeBackend .u128
        (.deserializer ()) (.visitor ())).1 = .error "deserialize_u128" :=
  ⟨fun S B B' s v => rfl, fun S B s v => rfl, fun S B s v => rfl, rfl, rfl, rfl,
    fun D E V Val B B' s v => rfl, fun D E V Val B s v => rfl,
    fun D E V Val B s v => rfl, rfl, rfl, rfl⟩

/-- A backend `next_entry_seed` that drives only the value seed to its
produced state and then fails.  It never returns `Ok`, so it vacuously
satisfies the precondition "returns `Ok` only after driving the adapter it
was handed to its Produced state". -/
def valueOnlyThenFail (a : Unit)
    (p : InplaceDeserializeSeed Unit Unit × InplaceDeserializeSeed Unit Unit) :
    Unit × (InplaceDeserializeSeed Unit Unit × InplaceDeserializeSeed Unit Unit)
      × Except String (Option (Unit × Unit)) :=
  (a, (p.1, .value ()), Except.error "boom")

/-- C10 counterexample: the claim's precondition ("the backend returns
`Ok` … only after driving the adapter it was handed to its Produced
state") does not rule out a backend that drives only the value seed to
Produced and then returns an error — it never returns `Ok`, so the
precondition holds vacuously (first conjunct: the one call the adapter
makes yields an error).  Yet `next_entry_seed` (src/de.rs:1876-1898)
panics on it: `into_result_option` (src/de.rs:810-824) answers
`Ok(Some(value))` because the value-seed slot holds `Value` even though
`result` is `Err`, and the following `match kseed` hits the
`unreachable!()` at src/de.rs:1895 because the key seed was never driven —
the embedding returns the panic marker `Option.none` (second conjunct). -/
theorem c10_entry_panic_counterexample :
    (valueOnlyThenFail ()
        (.deserializeSeed (), .deserializeSeed ())).2.2 = Except.error "boom"
    ∧ (serde_next_entry_seed (.mapAccess () : InplaceMapAccess Unit String) () ()
        valueOnlyThenFail).2 = Option.none :=
  ⟨rfl, rfl⟩

/-- C10 amended: under the precondition that the wrapped backend is
well-behaved — it returns `Ok` from a `deserialize`, `variant_seed`,
`next_entry_seed` or `serialize` call only after driving the adapter it
was handed to its Produced state, and (for `next_entry_seed`) it drives
the value seed to its produced state only after the key seed, the
ordering the source comment at src/de.rs:1892-1894 asserts — the
`unreachable!()` branches and `unwrap_err()` calls in the generic bridge
impls (embedded as `Option.none`) are never reached: every result is
`some`. -/
theorem c10_no_panic_when_backend_well_behaved
    (T Val A Var E K V KV VV : Type) (S : SerTypes) :
    (∀ (s : InplaceDeserializeSeed T Val) (r : InplaceDeserializeResult Unit),
      (∀ u, r = .ok u → ∃ x, s = .value x) →
        (InplaceDeserializeSeed.into_result s r).isSome = true)
    ∧ (∀ (s : InplaceDeserializeSeed T Val) (r : InplaceDeserializeResult (Option Unit)),
      (∀ u, r = .ok (some u) → ∃ x, s = .value x) →
        (InplaceDeserializeSeed.into_result_option s r).isSome = true)
    ∧ (∀ (acc : InplaceMapAccess A E) (k : K) (v : V)
        (B : A → InplaceDeserializeSeed K KV × InplaceDeserializeSeed V VV →
          A × (InplaceDeserializeSeed K KV × InplaceDeserializeSeed V VV)
            × Except E (Option (Unit × Unit))),
      (∀ (a a' : A) ks' vs' res,
        B a (.deserializeSeed k, .deserializeSeed v) = (a', (ks', vs'), res) →
          ((∃ x, vs' = .value x) → ∃ x, ks' = .value x)
          ∧ (∀ u, res = Except.ok (some u) → ∃ x, vs' = .value x)) →
        (serde_next_entry_seed acc k v B).2.isSome = true)
    ∧ (∀ (acc : InplaceEnumAccess A Var E) (sd : T)
        (B : A → InplaceDeserializeSeed T Val →
          InplaceDeserializeSeed T Val × Except E Var),
      (∀ (a : A) s' res, B a (.deserializeSeed sd) = (s', res) →
        ∀ var, res = Except.ok var → ∃ x, s' = .value x) →
        (serde_variant_seed acc sd B).2.isSome = true)
    ∧ (∀ (custom : String → S.Err)
        (run : InplaceSerializer S → InplaceSerializer S × Except SerializeError Unit)
        (ser : S.Srl),
      (∀ slot r, run (.serializer ser) = (slot, r) →
        ∀ u, r = Except.ok u → ∃ x, slot = .ok x) →
        (serde_serialize_dyn custom run ser).isSome = true) := by
  refine ⟨?_, ?_, ?_, ?_, ?_⟩
  · intro s r h
    cases s with
    | value x => cases r <;> rfl
    | none =>
      cases r with
      | error e => rfl
      | ok u => rcases h u rfl with ⟨x, hx⟩; exact nomatch hx
    | deserializeSeed t =>
      cases r with
      | error e => rfl
      | ok u => rcases h u rfl with ⟨x, hx⟩; exact nomatch hx
  · intro s r h
    cases s with
    | value x =>
      cases r with
      | error e => rfl
      | ok u => cases u <;> rfl
    | none =>
      cases r with
      | error e => rfl
      | ok u =>
        cases u with
        | none => rfl
        | some w => rcases h w rfl with ⟨x, hx⟩; exact nomatch hx
    | deserializeSeed t =>
      cases r with
      | error e => rfl
      | ok u =>
        cases u with
        | none => rfl
        | some w => rcases h w rfl with ⟨x, hx⟩; exact nomatch hx
  · intro acc k v B hB
    cases acc with
    | error e =>
      simp [serde_next_entry_seed, InplaceMapAccess.next_with,
        InplaceDeserializeSeed.into_result_option]
    | mapAccess a =>
      rcases h : B a (.deserializeSeed k, .deserializeSeed v) with ⟨a', ⟨ks', vs'⟩, res⟩
      rcases hB a a' ks' vs' res h with ⟨hkv, hres⟩
      cases res with
      | error e =>
        cases vs' with
        | value x =>
          rcases hkv ⟨x, rfl⟩ with ⟨kk, hkk⟩
          subst hkk
          simp [serde_next_entry_seed, InplaceMapAccess.next_with, h,
            InplaceDeserializeSeed.into_result_option]
        | none =>
          simp [serde_next_entry_seed, InplaceMapAccess.next_with, h,
            InplaceDeserializeSeed.into_result_option]
        | deserializeSeed t =>
          simp [serde_next_entry_seed, InplaceMapAccess.next_with, h,
            InplaceDeserializeSeed.into_result_option]
      | ok t =>
        cases t with
        | none =>
          cases vs' <;>
            simp [serde_next_entry_seed, InplaceMapAccess.next_with, h,
              InplaceDeserializeSeed.into_result_option]
        | some u =>
          rcases hres u rfl with ⟨x, hx⟩
          subst hx
          rcases hkv ⟨x, rfl⟩ with ⟨kk, hkk⟩
          subst hkk
          simp [serde_next_entry_seed, InplaceMapAccess.next_with, h,
            InplaceDeserializeSeed.into_result_option]
  · intro acc sd B hB
    cases acc with
    | none => simp [serde_variant_seed, InplaceEnumAccess.dyn_variant]
    | error e => simp [serde_variant_seed, InplaceEnumAccess.dyn_variant]
    | variantAccess w => simp [serde_variant_seed, InplaceEnumAccess.dyn_variant]
    | enumAccess a =>
      rcases h : B a (.deserializeSeed sd) with ⟨s', res⟩
      cases res with
      | error e => simp [serde_variant_seed, InplaceEnumAccess.dyn_variant, h]
      | ok var =>
        rcases hB a s' (Except.ok var) h var rfl with ⟨x, hx⟩
        subst hx
        simp [serde_variant_seed, InplaceEnumAccess.dyn_variant, h]
  · intro custom run ser h
    rcases hrun : run (.serializer ser) with ⟨slot, r⟩
    cases r with
    | error e => cases slot <;> simp [serde_serialize_dyn, hrun]
    | ok u =>
      rcases h slot (Except.ok u) hrun u rfl with ⟨x, hx⟩
      subst hx
      simp [serde_serialize_dyn, hrun]

/-- C10 witness: the no-panic conclusions applied at concrete inputs, the
well-behavedness hypotheses discharged there (a produced seed slot next to
an `Ok` result; backends that fail outright, trivially well-behaved). -/
theorem c10_no_panic_when_backend_well_behaved_witness :
    (InplaceDeserializeSeed.into_result
        (.value () : InplaceDeserializeSeed Unit Unit) (.ok ())).isSome = true
    ∧ (InplaceDeserializeSeed.into_result_option
        (.value () : InplaceDeserializeSeed Unit Unit)
        (.ok (some ()))).isSome = true
    ∧ (serde_next_entry_seed (.mapAccess () : InplaceMapAccess Unit String) () ()
        (fun (a : Unit)
            (p : InplaceDeserializeSeed Unit Unit × InplaceDeserializeSeed Unit Unit) =>
          (a, p, (Except.error "boom" : Except String (Option (Unit × Unit)))))).2.isSome
        = true
    ∧ (serde_variant_seed (.enumAccess () : InplaceEnumAccess Unit Unit String) ()
        (fun (a : Unit) (s : InplaceDeserializeSeed Unit Unit) =>
          (s, (Except.error "boom" : Except String Unit)))).2.isSome = true
    ∧ (serde_serialize_dyn (S := miniSerTypes) (fun s => s)
        (fun slot => (slot, Except.error (SerializeError.custom "boom")))
        ()).isSome = true := by
  have base := c10_no_panic_when_backend_well_behaved
    Unit Unit Unit Unit String Unit Unit Unit Unit miniSerTypes
  refine ⟨base.1 _ _ (fun u _ => ⟨(), rfl⟩),
    base.2.1 _ _ (fun u _ => ⟨(), rfl⟩),
    base.2.2.1 _ () () _ ?_,
    base.2.2.2.1 _ () _ ?_,
    base.2.2.2.2 _ _ () ?_⟩
  · intro a a' ks' vs' res hEq
    simp only [Prod.mk.injEq] at hEq
    obtain ⟨-, ⟨rfl, rfl⟩, rfl⟩ := hEq
    refine ⟨?_, ?_⟩
    · rintro ⟨x, hx⟩; exact nomatch hx
    · intro u hu; exact nomatch hu
  · intro a s' res hEq
    simp only [Prod.mk.injEq] at hEq
    obtain ⟨rfl, rfl⟩ := hEq
    intro var hvar
    exact nomatch hvar
  · intro slot r hEq
    simp only [Prod.mk.injEq] at hEq
    obtain ⟨rfl, rfl⟩ := hEq
    intro u hu
    exact nomatch hu

end DynSerde
